import Mathlib

/-!
Verification of the Football_web match-simulation engine.

This file gives a shallow embedding of the core match simulator
(`textfootball/core/match_simulator.py`, with the post-match morale updater
taken from `textfootball/core/match_simulator - Copy.py` and the player
attribute model from `textfootball/models/player.py`) and proves or refutes
the frozen behavioural claims about it.

Modelling conventions:
* Python float arithmetic is idealised: quantities that stay rational in the
  source (attributes, noise draws, rolls, derived ratings) are `ℚ`; the
  logistic probability, which applies `math.exp`, lives in `ℝ`.
* Randomness is an explicit oracle of typed streams (`Oracle`): one stream of
  unit-interval draws for `random.random` / `random.uniform`, one stream of
  naturals for `random.randint` / `random.choice`, and one stream for
  `random.gauss`.  Simulation state carries a cursor into each stream, so
  "for every sequence of random draws" becomes a universal quantification
  over oracles.
* Stateful methods become explicit state passing on `SimState`; the
  potentially non-terminating penalty-shootout loop is fuel-indexed and
  returns `Option` (`none` = the Python loop has not finished, or the Python
  code would raise on a malformed kicker list).
* The human-readable `details` debug strings attached to some log entries are
  presentational only (formatted floats) and are not modelled; every other
  log-entry field (minute, message, importance tag, event type) is kept.
-/

namespace Football

/-- Python enum `Position` from `textfootball/models/player.py`. -/
inductive Position where
  | GOALKEEPER
  | DEFENDER
  | MIDFIELDER
  | FORWARD
deriving DecidableEq, Repr

/-- Python enum `Personality` from `textfootball/models/player.py`. -/
inductive Personality where
  | PROFESSIONAL
  | AMBITIOUS
  | STOIC
  | VOLATILE
deriving DecidableEq, Repr

/-- Minimum specialty-skill level to earn a trait (`TRAIT_THRESHOLD`). -/
def TRAIT_THRESHOLD : ℚ := 65

/-- Skill multiplier granted by each of the three traits: all three entries of
`PlayerTrait` carry the factor 1.15 in their value tuple. -/
def TRAIT_BONUS : ℚ := 1.15

/-- Flag disabling the morale modifier in `effective_skill`
(`MORALE_EFFECT_ACTIVE`); it is 0 (off) in the source. -/
def MORALE_EFFECT_ACTIVE : ℕ := 0

/-- Class constant `Player.MORALE_IMPACT_FACTOR`. -/
def MORALE_IMPACT_FACTOR : ℚ := 0.10

/-- Player record from `textfootball/models/player.py` (the SQLAlchemy columns
that the simulation core reads). -/
structure Player where
  id : ℕ
  name : String
  position : Position
  skill : ℚ
  free_kick_ability : ℚ
  penalty_taking : ℚ
  penalty_saving : ℚ
  shape : ℚ
  morale : ℤ
  personality : Personality
deriving DecidableEq, Repr

namespace Player

/-- Property `Player.effective_skill`: general on-pitch effectiveness from
shape, with the (currently disabled) morale multiplier. -/
def effective_skill (p : Player) : ℚ :=
  let shape_multiplier : ℚ := 0.3 + p.shape * 0.7 / 100
  let base_effectiveness := p.skill * shape_multiplier
  let morale_multiplier : ℚ :=
    if MORALE_EFFECT_ACTIVE = 1 then
      if (p.morale : ℚ) ≥ 100 then 1
      else 1 - ((100 - (p.morale : ℚ)) / 100) * MORALE_IMPACT_FACTOR
    else 1
  base_effectiveness * morale_multiplier

/-- Property `Player.has_free_kick_trait`. -/
def has_free_kick_trait (p : Player) : Bool :=
  p.free_kick_ability ≥ TRAIT_THRESHOLD

/-- Property `Player.has_penalty_trait`. -/
def has_penalty_trait (p : Player) : Bool :=
  p.penalty_taking ≥ TRAIT_THRESHOLD

/-- Property `Player.has_penalty_stopper_trait`. -/
def has_penalty_stopper_trait (p : Player) : Bool :=
  p.position = Position.GOALKEEPER ∧ p.penalty_saving ≥ TRAIT_THRESHOLD

/-- Property `Player.effective_fk_ability`. -/
def effective_fk_ability (p : Player) : ℚ :=
  let shape_multiplier : ℚ := 0.5 + p.shape * 0.5 / 100
  let base_ability := p.free_kick_ability * shape_multiplier
  if p.has_free_kick_trait then base_ability * TRAIT_BONUS else base_ability

/-- Property `Player.effective_penalty_taking`. -/
def effective_penalty_taking (p : Player) : ℚ :=
  let shape_multiplier : ℚ := 0.5 + p.shape * 0.5 / 100
  let base_ability := p.penalty_taking * shape_multiplier
  if p.has_penalty_trait then base_ability * TRAIT_BONUS else base_ability

/-- Property `Player.effective_penalty_saving`. -/
def effective_penalty_saving (p : Player) : ℚ :=
  let shape_multiplier : ℚ := 0.5 + p.shape * 0.5 / 100
  let base_ability := p.penalty_saving * shape_multiplier
  if p.has_penalty_stopper_trait then base_ability * TRAIT_BONUS else base_ability

/-- Method `Player.get_personality_multiplier`. -/
def get_personality_multiplier (p : Player) (is_positive_event : Bool) : ℚ :=
  match p.personality with
  | Personality.PROFESSIONAL => 1
  | Personality.AMBITIOUS => if is_positive_event then 1.5 else 0.8
  | Personality.STOIC => 0.6
  | Personality.VOLATILE => 1.8

end Player

end Football

namespace Football

open scoped Classical in
/-- Function `logistic_probability` from `match_simulator.py`: the generic
logistic contest probability with the exponent clamped at plus or minus 10.
The Python `except OverflowError` arm is dead code once the clamp is in place
and is not modelled. -/
noncomputable def logistic_probability (strength_a strength_b scaling_factor : ℝ) : ℝ :=
  let diff := strength_a - strength_b
  let exponent := -diff / scaling_factor
  if exponent > 10 then 0
  else if exponent < -10 then 1
  else 1 / (1 + Real.exp exponent)

lemma logistic_probability_def (a b s : ℝ) :
    logistic_probability a b s =
      if -(a - b) / s > 10 then 0
      else if -(a - b) / s < -10 then 1
      else 1 / (1 + Real.exp (-(a - b) / s)) := rfl

/-- Clamp on the low side: a huge strength deficit gives probability exactly 0. -/
lemma logistic_eq_zero {a b s : ℝ} (hs : 0 < s) (h : a - b < -(10 * s)) :
    logistic_probability a b s = 0 := by
  rw [logistic_probability_def, if_pos]
  rw [gt_iff_lt, lt_div_iff₀ hs]
  nlinarith

/-- Clamp on the high side: a huge strength surplus gives probability exactly 1. -/
lemma logistic_eq_one {a b s : ℝ} (hs : 0 < s) (h : 10 * s < a - b) :
    logistic_probability a b s = 1 := by
  rw [logistic_probability_def, if_neg, if_pos]
  · rw [div_lt_iff₀ hs]; nlinarith
  · rw [gt_iff_lt, not_lt, div_le_iff₀ hs]; nlinarith

/-- Middle band: the exponent is within the clamp, so the sigmoid formula applies. -/
lemma logistic_eq_mid {a b s : ℝ} (hs : 0 < s) (h1 : -(10 * s) ≤ a - b)
    (h2 : a - b ≤ 10 * s) :
    logistic_probability a b s = 1 / (1 + Real.exp (-(a - b) / s)) := by
  rw [logistic_probability_def, if_neg, if_neg]
  · rw [not_lt, le_div_iff₀ hs]; nlinarith
  · rw [gt_iff_lt, not_lt, div_le_iff₀ hs]; nlinarith

/-- Bounds for the unclamped logistic value. -/
lemma one_div_one_add_exp_bounds (x : ℝ) :
    0 < 1 / (1 + Real.exp x) ∧ 1 / (1 + Real.exp x) < 1 := by
  have hx := Real.exp_pos x
  constructor
  · positivity
  · rw [div_lt_one (by positivity)]; linarith

/-- Range invariant of the clamped logistic. -/
lemma logistic_bounds (a b s : ℝ) :
    0 ≤ logistic_probability a b s ∧ logistic_probability a b s ≤ 1 := by
  rw [logistic_probability_def]
  split_ifs with h1 h2
  · norm_num
  · norm_num
  · have h := one_div_one_add_exp_bounds (-(a - b) / s)
    exact ⟨h.1.le, h.2.le⟩

/-- Monotonicity of the clamped logistic as a function of the advantage. -/
lemma logistic_mono {s : ℝ} (hs : 0 < s) {a b a' b' : ℝ} (h : a - b ≤ a' - b') :
    logistic_probability a b s ≤ logistic_probability a' b' s := by
  by_cases hd0 : a - b < -(10 * s)
  · rw [logistic_eq_zero hs hd0]
    exact (logistic_bounds a' b' s).1
  by_cases hd1 : 10 * s < a - b
  · rw [logistic_eq_one hs hd1, logistic_eq_one hs (lt_of_lt_of_le hd1 h)]
  push_neg at hd0 hd1
  rw [logistic_eq_mid hs hd0 hd1]
  by_cases hd2 : 10 * s < a' - b'
  · rw [logistic_eq_one hs hd2]
    exact ((one_div_one_add_exp_bounds (-(a - b) / s)).2).le
  push_neg at hd2
  rw [logistic_eq_mid hs (le_trans hd0 h) hd2]
  have hediv : -(a' - b') / s ≤ -(a - b) / s := by
    gcongr
  have hexp : Real.exp (-(a' - b') / s) ≤ Real.exp (-(a - b) / s) :=
    Real.exp_le_exp.mpr hediv
  have hp : (0:ℝ) < 1 + Real.exp (-(a' - b') / s) := by positivity
  apply one_div_le_one_div_of_le hp
  linarith

/-- Strict monotonicity inside the unclamped band. -/
lemma logistic_strict_mono {s : ℝ} (hs : 0 < s) {a b a' b' : ℝ}
    (hlo : -(10 * s) ≤ a - b) (hhi : a' - b' ≤ 10 * s) (h : a - b < a' - b') :
    logistic_probability a b s < logistic_probability a' b' s := by
  rw [logistic_eq_mid hs hlo (by linarith), logistic_eq_mid hs (by linarith) hhi]
  have hediv : -(a' - b') / s < -(a - b) / s := by
    gcongr
  have hexp : Real.exp (-(a' - b') / s) < Real.exp (-(a - b) / s) :=
    Real.exp_lt_exp.mpr hediv
  have hp1 : (0:ℝ) < 1 + Real.exp (-(a' - b') / s) := by positivity
  have hp2 : (0:ℝ) < 1 + Real.exp (-(a - b) / s) := by positivity
  rw [div_lt_div_iff₀ hp2 hp1]
  linarith

/-- Exact complement identity of the clamped logistic. -/
lemma logistic_add_swap {s : ℝ} (hs : 0 < s) (a b : ℝ) :
    logistic_probability a b s + logistic_probability b a s = 1 := by
  by_cases hd0 : a - b < -(10 * s)
  · rw [logistic_eq_zero hs hd0, logistic_eq_one hs (by linarith : 10 * s < b - a)]
    norm_num
  by_cases hd1 : 10 * s < a - b
  · rw [logistic_eq_one hs hd1, logistic_eq_zero hs (by linarith : b - a < -(10 * s))]
    norm_num
  push_neg at hd0 hd1
  rw [logistic_eq_mid hs hd0 hd1, logistic_eq_mid hs (by linarith) (by linarith)]
  have hx : Real.exp (-(b - a) / s) = (Real.exp (-(a - b) / s))⁻¹ := by
    rw [← Real.exp_neg]
    congr 1
    ring
  rw [hx]
  have he := Real.exp_pos (-(a - b) / s)
  field_simp
  ring

end Football

namespace Football

/-- C1 (amended): for every pair of real strengths and every positive scale,
`logistic_probability` lies in [0,1], satisfies the exact complement identity
`P(a,b,s) + P(b,a,s) = 1`, is monotone non-decreasing in the advantage
`a - b`, and is strictly increasing whenever both advantages lie within the
clamp band `[-10s, 10s]`.  (Strict monotonicity over all advantages fails
because of the exponent clamp; see the counterexample.) -/
theorem claim_C1 (a b s : ℝ) (hs : 0 < s) :
    (0 ≤ logistic_probability a b s ∧ logistic_probability a b s ≤ 1) ∧
    logistic_probability a b s + logistic_probability b a s = 1 ∧
    (∀ a' b' : ℝ, a - b ≤ a' - b' →
      logistic_probability a b s ≤ logistic_probability a' b' s) ∧
    (∀ a' b' : ℝ, -(10 * s) ≤ a - b → a' - b' ≤ 10 * s → a - b < a' - b' →
      logistic_probability a b s < logistic_probability a' b' s) := by
  refine ⟨logistic_bounds a b s, logistic_add_swap hs a b, ?_, ?_⟩
  · intro a' b' h
    exact logistic_mono hs h
  · intro a' b' hlo hhi h
    exact logistic_strict_mono hs hlo hhi h

/-- C1 witness: the amended statement instantiated at strengths 2, 1 and
scale 1. -/
theorem claim_C1_witness :
    (0:ℝ) < 1 ∧
    ((0 ≤ logistic_probability 2 1 1 ∧ logistic_probability 2 1 1 ≤ 1) ∧
    logistic_probability 2 1 1 + logistic_probability 1 2 1 = 1 ∧
    (∀ a' b' : ℝ, (2:ℝ) - 1 ≤ a' - b' →
      logistic_probability 2 1 1 ≤ logistic_probability a' b' 1) ∧
    (∀ a' b' : ℝ, -(10 * 1) ≤ (2:ℝ) - 1 → a' - b' ≤ 10 * 1 → (2:ℝ) - 1 < a' - b' →
      logistic_probability 2 1 1 < logistic_probability a' b' 1)) :=
  ⟨by norm_num, claim_C1 2 1 1 (by norm_num)⟩

/-- C1 counterexample: with scale 1, advantages -30 and -20 both sit in the
low clamp and get probability exactly 0, so the function is not strictly
increasing in the advantage. -/
theorem claim_C1_counterexample :
    ((0:ℝ) - 30 < (0:ℝ) - 20) ∧
    logistic_probability 0 30 1 = 0 ∧
    logistic_probability 0 20 1 = 0 ∧
    ¬ logistic_probability 0 30 1 < logistic_probability 0 20 1 := by
  have h30 : logistic_probability 0 30 1 = 0 := logistic_eq_zero (by norm_num) (by norm_num)
  have h20 : logistic_probability 0 20 1 = 0 := logistic_eq_zero (by norm_num) (by norm_num)
  refine ⟨by norm_num, h30, h20, ?_⟩
  rw [h30, h20]
  exact lt_irrefl 0

/-- C3 (amended): with the morale modifier off (its default), effective skill
is exactly `skill * (0.3 + 0.7 * shape / 100)`; it is monotone non-decreasing
in shape for non-negative skill, equals `0.3 * skill` at shape 0 and `skill`
at shape 100, and never exceeds `skill` while shape stays within [0, 100].
(The unconditional "never exceeds skill" fails: shape is not capped at 100;
see the counterexample.) -/
theorem claim_C3 (p : Player) :
    p.effective_skill = p.skill * (0.3 + 0.7 * p.shape / 100) ∧
    (∀ q : Player, q.skill = p.skill → 0 ≤ p.skill → p.shape ≤ q.shape →
      p.effective_skill ≤ q.effective_skill) ∧
    (p.shape = 0 → p.effective_skill = 0.3 * p.skill) ∧
    (p.shape = 100 → p.effective_skill = p.skill) ∧
    (0 ≤ p.skill → p.shape ≤ 100 → p.effective_skill ≤ p.skill) := by
  have hdef : ∀ r : Player, r.effective_skill = r.skill * (0.3 + 0.7 * r.shape / 100) := by
    intro r
    simp only [Player.effective_skill, MORALE_EFFECT_ACTIVE]
    rw [if_neg (by norm_num)]
    ring
  refine ⟨hdef p, ?_, ?_, ?_, ?_⟩
  · intro q hq hsk hsh
    rw [hdef p, hdef q, hq]
    have : (0.3 + 0.7 * p.shape / 100 : ℚ) ≤ 0.3 + 0.7 * q.shape / 100 := by
      nlinarith
    nlinarith
  · intro h0
    rw [hdef p, h0]
    ring
  · intro h100
    rw [hdef p, h100]
    norm_num
  · intro hsk hsh
    rw [hdef p]
    nlinarith

/-- Concrete player used to refute the uncapped part of C3: shape 200. -/
def c3_player : Player :=
  { id := 1, name := "cx", position := Position.FORWARD, skill := 100,
    free_kick_ability := 50, penalty_taking := 50, penalty_saving := 50,
    shape := 200, morale := 80, personality := Personality.PROFESSIONAL }

/-- C3 counterexample: a player with shape 200 and skill 100 has effective
skill 170, strictly above `1.0 * skill`, refuting "for no shape value does it
exceed 1.0 x skill". -/
theorem claim_C3_counterexample :
    c3_player.effective_skill = 170 ∧ c3_player.skill = 100 ∧
    c3_player.effective_skill > 1 * c3_player.skill := by
  refine ⟨?_, rfl, ?_⟩ <;>
    simp [c3_player, Player.effective_skill, MORALE_EFFECT_ACTIVE] <;> norm_num

/-- C3 witness: the amended statement instantiated at a concrete pair of
players with shapes 50 and 80 and equal skill 60. -/
theorem claim_C3_witness :
    ((0:ℚ) ≤ 60 ∧ (50:ℚ) ≤ 80 ∧ (50:ℚ) ≤ 100) ∧
    ({ c3_player with skill := 60, shape := 50 } : Player).effective_skill ≤
      ({ c3_player with skill := 60, shape := 80 } : Player).effective_skill ∧
    ({ c3_player with skill := 60, shape := 50 } : Player).effective_skill ≤
      ({ c3_player with skill := 60, shape := 50 } : Player).skill := by
  refine ⟨⟨by norm_num, by norm_num, by norm_num⟩, ?_, ?_⟩
  · exact (claim_C3 _).2.1 { c3_player with skill := 60, shape := 80 } rfl
      (by norm_num) (by norm_num)
  · exact (claim_C3 _).2.2.2.2 (by norm_num) (by norm_num)

end Football

namespace Football

/-- Formation used to pick the starting 11 (`FORMATION`), in the source's
insertion order. -/
def FORMATION : List (Position × ℕ) :=
  [(Position.GOALKEEPER, 1), (Position.DEFENDER, 4),
   (Position.MIDFIELDER, 4), (Position.FORWARD, 2)]

/-- Home advantage multiplier (`HOME_ADVANTAGE_BOOST`). -/
def HOME_ADVANTAGE_BOOST : ℚ := 1.04

/-- Tunable `MIDFIELD_SCALING`. -/
def MIDFIELD_SCALING : ℚ := 32

/-- Tunable `ATTACK_SCALING`. -/
def ATTACK_SCALING : ℚ := 32

/-- Tunable `GOAL_CONVERSION_FACTOR`. -/
def GOAL_CONVERSION_FACTOR : ℚ := 1.00

/-- Tunable `DEF_GK_BLEND`. -/
def DEF_GK_BLEND : ℚ := 0.18

/-- Tunable `GK_SHOT_SCALING`. -/
def GK_SHOT_SCALING : ℚ := 30

/-- Tunable `SHOOTER_NOISE_MIN`. -/
def SHOOTER_NOISE_MIN : ℚ := 0.85

/-- Tunable `SHOOTER_NOISE_MAX`. -/
def SHOOTER_NOISE_MAX : ℚ := 1.15

/-- Tunable `GK_NOISE_MIN`. -/
def GK_NOISE_MIN : ℚ := 0.92

/-- Tunable `GK_NOISE_MAX`. -/
def GK_NOISE_MAX : ℚ := 1.08

/-- Tunable `AVG_FREE_KICKS_PER_GAME`. -/
def AVG_FREE_KICKS_PER_GAME : ℚ := 10

/-- Tunable `FREE_KICK_VARIANCE`. -/
def FREE_KICK_VARIANCE : ℚ := 5

/-- Tunable `FK_SHOT_SCALING`. -/
def FK_SHOT_SCALING : ℚ := 24

/-- Tunable `FK_GOAL_CONVERSION_FACTOR_BASE`. -/
def FK_GOAL_CONVERSION_FACTOR_BASE : ℚ := 0.60

/-- Tunable `PENALTY_AWARD_PROBABILITY`. -/
def PENALTY_AWARD_PROBABILITY : ℚ := 0.03

/-- Tunable `PENALTY_SCALING`. -/
def PENALTY_SCALING : ℚ := 20

/-- Tunable `PENALTY_CONVERSION_FACTOR`. -/
def PENALTY_CONVERSION_FACTOR : ℚ := 1.15

/-- Free-kick pitch zones, the keys of `FK_ZONES`. -/
inductive FKZone where
  | DEEP
  | MIDDLE
  | ATTACKING
  | DANGEROUS
deriving DecidableEq, Repr

/-- Table `FK_ZONES`: likelihood, probability of a direct shot, probability of
an indirect attack, defense modifier. -/
def FK_ZONES (z : FKZone) : ℚ × ℚ × ℚ × ℚ :=
  match z with
  | FKZone.DEEP => (0.25, 0.00, 0.05, 1.00)
  | FKZone.MIDDLE => (0.50, 0.02, 0.40, 0.90)
  | FKZone.ATTACKING => (0.17, 0.30, 0.70, 0.75)
  | FKZone.DANGEROUS => (0.08, 0.85, 0.15, 0.60)

/-- Lower-case zone name used in free-kick log messages (`zone.lower()`). -/
def fkZoneLower (z : FKZone) : String :=
  match z with
  | FKZone.DEEP => "deep"
  | FKZone.MIDDLE => "middle"
  | FKZone.ATTACKING => "attacking"
  | FKZone.DANGEROUS => "dangerous"

/-- Distance factor looked up per zone in `resolve_direct_free_kick`
(`{'DANGEROUS': 1.3, 'ATTACKING': 0.8, 'MIDDLE': 0.3}.get(zone, 0.1)`). -/
def fk_dist_factor (z : FKZone) : ℚ :=
  match z with
  | FKZone.DANGEROUS => 1.3
  | FKZone.ATTACKING => 0.8
  | FKZone.MIDDLE => 0.3
  | FKZone.DEEP => 0.1

/-- Roster object handed to the core: team identity plus ordered player list
(the slice of the `Team` model the simulator reads). -/
structure TeamModel where
  name : String
  players : List Player
deriving DecidableEq, Repr

/-- Concatenation of the four position groups in `Position` declaration
order, as `MatchTeam.get_starting_11` iterates the lineup dict. -/
def starting_11 (lineup : Position → List Player) : List Player :=
  lineup Position.GOALKEEPER ++ lineup Position.DEFENDER ++
    lineup Position.MIDFIELDER ++ lineup Position.FORWARD

/-- Empty lineup dict (`{pos: [] for pos in Position}`). -/
def emptyLineup : Position → List Player := fun _ => []

/-- Append players to one position group of a lineup dict. -/
def lineupInsert (lu : Position → List Player) (pos : Position)
    (ps : List Player) : Position → List Player :=
  fun q => if q = pos then lu q ++ ps else lu q

/-- Default branch of `MatchTeam.select_lineup`: rank by effective skill
descending (stable, like Python's `sorted(..., reverse=True)`), fill the
formation quotas, then fill up to 11 from the best remaining players. -/
def select_lineup_default (players : List Player) : Position → List Player :=
  let sorted_players :=
    players.mergeSort (fun p q => decide (q.effective_skill ≤ p.effective_skill))
  let lu := FORMATION.foldl (fun lu pc =>
    let candidates := sorted_players.filter
      (fun p => p.position == pc.1 && !((starting_11 lu).contains p))
    lineupInsert lu pc.1 (candidates.take pc.2)) emptyLineup
  let squad_count := (starting_11 lu).length
  if squad_count < 11 then
    let remaining_players :=
      sorted_players.filter (fun p => !((starting_11 lu).contains p))
    (remaining_players.take (11 - squad_count)).foldl
      (fun lu p => lineupInsert lu p.position [p]) lu
  else lu

/-- Method `MatchTeam.select_lineup`: with a truthy `fixed_lineup_ids`, use
exactly the roster players whose id is in the set, grouped by their own
position; otherwise the default formation-based selection. -/
def select_lineup (team : TeamModel) (fixed_lineup_ids : Option (List ℕ)) :
    Position → List Player :=
  match fixed_lineup_ids with
  | some ids =>
    if ids.isEmpty then select_lineup_default team.players
    else
      let fixed_players := team.players.filter (fun p => ids.contains p.id)
      fun pos => fixed_players.filter (fun p => p.position == pos)
  | none => select_lineup_default team.players

/-- Per-zone base strength from `MatchTeam.calculate_zonal_strength`: average
effective skill of the zone's players, or the fixed baseline 20 for an empty
zone. -/
def zonal_base (lineup : Position → List Player) (pos : Position) : ℚ :=
  let players := lineup pos
  if players.isEmpty then 20
  else (players.map Player.effective_skill).sum / players.length

/-- Python `max(xs, key=key)` on players: first element with maximal key. -/
def pymax_by (key : Player → ℚ) : List Player → Option Player
  | [] => none
  | p :: ps => some (ps.foldl (fun best q => if key best < key q then q else best) p)

/-- Per-match wrapper `MatchTeam` after `__init__` has run: selected lineup,
zonal strengths, cached averages, score, designated set-piece takers. -/
structure MatchTeam where
  team : TeamModel
  is_home : Bool
  fixed_lineup_ids : Option (List ℕ)
  lineup : Position → List Player
  base_zonal_strength : Position → ℚ
  zonal_strength : Position → ℚ
  avg_shape : ℚ
  avg_base_skill : ℚ
  avg_effective_skill : ℚ
  score : ℕ
  best_fk_taker : Option Player
  best_penalty_taker : Option Player

/-- Method `MatchTeam.get_starting_11`. -/
def MatchTeam.get_starting_11 (t : MatchTeam) : List Player :=
  starting_11 t.lineup

/-- Method `MatchTeam.get_goalkeeper`: head of the goalkeeper group. -/
def MatchTeam.get_goalkeeper (t : MatchTeam) : Option Player :=
  (t.lineup Position.GOALKEEPER).head?

/-- Constructor `MatchTeam.__init__`: select the lineup, compute zonal
strengths and averages, find the designated free-kick and penalty takers. -/
def mkMatchTeam (team_model : TeamModel) (is_home : Bool)
    (fixed_lineup_ids : Option (List ℕ)) : MatchTeam :=
  let lineup := select_lineup team_model fixed_lineup_ids
  let s11 := starting_11 lineup
  let base := fun pos => zonal_base lineup pos
  { team := team_model
    is_home := is_home
    fixed_lineup_ids := fixed_lineup_ids
    lineup := lineup
    base_zonal_strength := base
    zonal_strength := fun pos =>
      if is_home then base pos * HOME_ADVANTAGE_BOOST else base pos
    avg_shape := if s11.isEmpty then 0 else (s11.map Player.shape).sum / s11.length
    avg_base_skill := if s11.isEmpty then 0 else (s11.map Player.skill).sum / s11.length
    avg_effective_skill :=
      if s11.isEmpty then 0 else (s11.map Player.effective_skill).sum / s11.length
    score := 0
    best_fk_taker := pymax_by (fun p => p.free_kick_ability) s11
    best_penalty_taker := pymax_by (fun p => p.penalty_taking) s11 }

end Football

namespace Football

/-- Membership in a fixed lineup's starting eleven is membership in the
filtered fixed-player list. -/
lemma mem_starting_11_fixed (players : List Player) (ids : List ℕ) (p : Player) :
    p ∈ starting_11 (fun pos =>
      (players.filter (fun q => ids.contains q.id)).filter
        (fun q => q.position == pos)) ↔
    p ∈ players.filter (fun q => ids.contains q.id) := by
  simp only [starting_11, List.mem_append, List.mem_filter]
  constructor
  · rintro (((⟨h, _⟩ | ⟨h, _⟩) | ⟨h, _⟩) | ⟨h, _⟩) <;> exact h
  · intro h
    have hm : p.id ∈ ids := List.elem_iff.mp h.2
    cases hpos : p.position <;> simp [h.1, hpos, hm]

/-- C8: building a `MatchTeam` from a non-empty fixed id set that is covered
by the roster yields a lineup whose id set is exactly the given set, with
each player grouped under their own position, and the construction is a pure
function of the roster and the id set (repeated invocations coincide). -/
theorem claim_C8 (team : TeamModel) (is_home : Bool) (ids : List ℕ)
    (hne : ids ≠ []) (hcov : ∀ i ∈ ids, ∃ p ∈ team.players, p.id = i) :
    (∀ i, i ∈ ((mkMatchTeam team is_home (some ids)).get_starting_11.map Player.id) ↔
      i ∈ ids) ∧
    (∀ pos p, p ∈ (mkMatchTeam team is_home (some ids)).lineup pos →
      p.position = pos) ∧
    mkMatchTeam team is_home (some ids) = mkMatchTeam team is_home (some ids) := by
  have hids : ids.isEmpty = false := by
    cases ids with
    | nil => exact absurd rfl hne
    | cons a l => rfl
  have hlineup : (mkMatchTeam team is_home (some ids)).lineup =
      fun pos => (team.players.filter (fun q => ids.contains q.id)).filter
        (fun q => q.position == pos) := by
    simp only [mkMatchTeam, select_lineup, hids, Bool.false_eq_true, if_neg,
      not_false_iff]
  refine ⟨?_, ?_, rfl⟩
  · intro i
    rw [MatchTeam.get_starting_11, hlineup]
    simp only [List.mem_map]
    constructor
    · rintro ⟨p, hp, hpi⟩
      rw [mem_starting_11_fixed] at hp
      simp only [List.mem_filter, List.elem_iff] at hp
      obtain ⟨-, hmem⟩ := hp
      rw [← hpi]
      simpa using hmem
    · intro hi
      obtain ⟨p, hp, hpi⟩ := hcov i hi
      refine ⟨p, ?_, hpi⟩
      rw [mem_starting_11_fixed]
      simp only [List.mem_filter, List.elem_iff]
      exact ⟨hp, by simpa [hpi] using hi⟩
  · intro pos p hp
    rw [hlineup] at hp
    simp only [List.mem_filter, beq_iff_eq] at hp
    exact hp.2

/-- Roster used by the C8 witness. -/
def c8_team : TeamModel :=
  { name := "W"
    players :=
      [{ c3_player with id := 5, position := Position.GOALKEEPER, shape := 50 },
       { c3_player with id := 7, position := Position.FORWARD, shape := 60 }] }

/-- C8 witness: the theorem instantiated on a two-player roster with the
fixed id set [5, 7]. -/
theorem claim_C8_witness :
    (([5, 7] : List ℕ) ≠ [] ∧
      ∀ i ∈ ([5, 7] : List ℕ), ∃ p ∈ c8_team.players, p.id = i) ∧
    ((∀ i, i ∈ ((mkMatchTeam c8_team true (some [5, 7])).get_starting_11.map Player.id) ↔
      i ∈ ([5, 7] : List ℕ)) ∧
    (∀ pos p, p ∈ (mkMatchTeam c8_team true (some [5, 7])).lineup pos →
      p.position = pos) ∧
    mkMatchTeam c8_team true (some [5, 7]) = mkMatchTeam c8_team true (some [5, 7])) :=
  ⟨⟨by decide, by decide⟩, claim_C8 c8_team true [5, 7] (by decide) (by decide)⟩

end Football

namespace Football

/-- Match-simulator side tokens; the Python object identities `self.team_a`
and `self.team_b`. -/
inductive Side where
  | A
  | B
deriving DecidableEq, Repr

/-- Pitch-zone token `self.zone` with values `'M'`, `'A'`, `'B'`. -/
inductive Zone where
  | M
  | A
  | B
deriving DecidableEq, Repr

/-- The opposing side (`self.team_b if attacker == self.team_a else self.team_a`). -/
def other : Side → Side
  | Side.A => Side.B
  | Side.B => Side.A

/-- One entry of `self.log` as appended by `MatchSimulator.log_event`.  The
presentational `details` string (formatted floats) is not modelled. -/
structure LogEntry where
  minute : ℕ
  message : String
  importance : String
  event_type : Option String
deriving DecidableEq, Repr

/-- One pre-generated free-kick event. -/
structure FKEvent where
  minute : ℕ
  team : Side
  zone : FKZone
deriving DecidableEq, Repr

/-- Oracle of random draws: stream `floats` feeds `random.random` and
`random.uniform`, stream `nats` feeds `random.randint` and `random.choice`,
stream `gauss` feeds `random.gauss`.  Quantifying over oracles quantifies
over all sequences of random draws. -/
structure Oracle where
  floats : ℕ → ℚ
  nats : ℕ → ℕ
  gauss : ℕ → ℚ

/-- Mutable state of one `MatchSimulator` instance, with cursors `rngF` /
`rngN` into the oracle streams. -/
structure SimState where
  team_a : MatchTeam
  team_b : MatchTeam
  logging_enabled : Bool
  is_knockout : Bool
  log : List LogEntry
  minute : ℕ
  zone : Zone
  possession : Option Side
  free_kick_events : List FKEvent
  shootout_score_a : ℕ
  shootout_score_b : ℕ
  winner_on_penalties : Option String
  rngF : ℕ
  rngN : ℕ

/-- Dereference a side token. -/
def SimState.teamOf (st : SimState) : Side → MatchTeam
  | Side.A => st.team_a
  | Side.B => st.team_b

/-- Increment one side's score (`attacker.score += 1`). -/
def addScore (st : SimState) : Side → SimState
  | Side.A => { st with team_a := { st.team_a with score := st.team_a.score + 1 } }
  | Side.B => { st with team_b := { st.team_b with score := st.team_b.score + 1 } }

/-- One `random.random()` draw. -/
def randFloat (o : Oracle) (st : SimState) : ℚ × SimState :=
  (o.floats st.rngF, { st with rngF := st.rngF + 1 })

/-- One `random.uniform(lo, hi)` draw. -/
def randUniform (o : Oracle) (st : SimState) (lo hi : ℚ) : ℚ × SimState :=
  (lo + (hi - lo) * o.floats st.rngF, { st with rngF := st.rngF + 1 })

/-- One `random.randint(lo, hi)` draw. -/
def randNat (o : Oracle) (st : SimState) (lo hi : ℕ) : ℕ × SimState :=
  (lo + o.nats st.rngN % (hi - lo + 1), { st with rngN := st.rngN + 1 })

/-- One `random.choice([self.team_a, self.team_b])` draw. -/
def randSide (o : Oracle) (st : SimState) : Side × SimState :=
  (if o.nats st.rngN % 2 = 0 then Side.A else Side.B, { st with rngN := st.rngN + 1 })

/-- Method `MatchTeam.get_random_player`: uniform choice among the listed
position groups, or `None` on an empty candidate list (no draw consumed). -/
def get_random_player (t : MatchTeam) (o : Oracle) (st : SimState)
    (positions : List Position) : Option Player × SimState :=
  let candidates := (positions.map t.lineup).flatten
  if candidates.isEmpty then (none, st)
  else (candidates.get? (o.nats st.rngN % candidates.length),
    { st with rngN := st.rngN + 1 })

/-- Method `MatchSimulator.log_event`: appends an entry when logging is
enabled, otherwise does nothing. -/
def log_event (st : SimState) (message importance : String)
    (event_type : Option String) : SimState :=
  if st.logging_enabled then
    { st with log := st.log ++
        [LogEntry.mk st.minute message importance event_type] }
  else st

open scoped Classical

/-- Function `goal_probability`: multiplicative noise on shooter and keeper,
then the clamped logistic (inlined in the source, identical to
`logistic_probability`), times the conversion factor, capped at 1. -/
noncomputable def goal_probability (o : Oracle) (st : SimState)
    (shooter_eff keeper_eff scaling conversion_factor : ℚ) : ℝ × SimState :=
  let r1 := randUniform o st SHOOTER_NOISE_MIN SHOOTER_NOISE_MAX
  let n1 := r1.1
  let st1 := r1.2
  let r2 := randUniform o st1 GK_NOISE_MIN GK_NOISE_MAX
  let n2 := r2.1
  let st2 := r2.2
  let rand_shooter := shooter_eff * n1
  let rand_keeper := keeper_eff * n2
  let diff := rand_shooter - rand_keeper
  let exponent : ℚ := -diff / scaling
  let base : ℝ :=
    if exponent > 10 then 0
    else if exponent < -10 then 1
    else 1 / (1 + Real.exp ((exponent : ℚ) : ℝ))
  (min 1 (base * ((conversion_factor : ℚ) : ℝ)), st2)

/-- Method `MatchSimulator.resolve_shot`. -/
noncomputable def resolve_shot (o : Oracle) (st : SimState) (atk dfn : Side) : SimState :=
  let attacker := st.teamOf atk
  let defender := st.teamOf dfn
  let rp := get_random_player attacker o st
    [Position.FORWARD, Position.MIDFIELDER]
  let st1 := rp.2
  match rp.1, defender.get_goalkeeper with
  | some shooter, some goalkeeper =>
    let rg := goal_probability o st1 shooter.effective_skill
      goalkeeper.effective_skill GK_SHOT_SCALING GOAL_CONVERSION_FACTOR
    let prob := rg.1
    let st2 := rg.2
    let rr := randFloat o st2
    let roll := rr.1
    let st3 := rr.2
    if (roll : ℝ) < prob then
      let st4 := addScore st3 atk
      let st5 := if st4.logging_enabled then
          log_event st4 ("GOAL! " ++ shooter.name ++ "! (" ++
            toString st4.team_a.score ++ "-" ++ toString st4.team_b.score ++ ")")
            "goal" (some "GOAL")
        else st4
      { st5 with possession := some dfn, zone := Zone.M }
    else
      let st4 := if st3.logging_enabled then
          log_event st3 ("NO GOAL! Shot by " ++ shooter.name ++ ".") "miss" (some "MISS")
        else st3
      { st4 with possession := some dfn, zone := Zone.M }
  | _, _ => { st1 with possession := some dfn, zone := Zone.M }

/-- Method `MatchSimulator.resolve_penalty_kick`, returning the goal flag and
the updated state.  With a missing taker or goalkeeper it returns `False`
leaving the state untouched (no possession transfer, no zone reset). -/
noncomputable def resolve_penalty_kick (o : Oracle) (st : SimState) (atk dfn : Side)
    (taker_arg : Option Player) (is_shootout_kick : Bool) : Bool × SimState :=
  let attacker := st.teamOf atk
  let defender := st.teamOf dfn
  let taker? := match taker_arg with
    | none => attacker.best_penalty_taker
    | some t => some t
  match taker?, defender.get_goalkeeper with
  | some taker, some goalkeeper =>
    let rg := goal_probability o st taker.effective_penalty_taking
      goalkeeper.effective_penalty_saving PENALTY_SCALING PENALTY_CONVERSION_FACTOR
    let prob := rg.1
    let st1 := rg.2
    let rr := randFloat o st1
    let roll := rr.1
    let st2 := rr.2
    if (roll : ℝ) < prob then
      let st3 := if st2.logging_enabled then
          (if is_shootout_kick then
            log_event st2 ("GOAL! " ++ taker.name ++ " scores.") "high"
              (some "SHOOTOUT_KICK")
          else
            log_event st2 ("GOAL! " ++ taker.name ++ " converts! (" ++
              toString (if atk = Side.A then st2.team_a.score + 1 else st2.team_a.score) ++
              "-" ++
              toString (if atk = Side.B then st2.team_b.score + 1 else st2.team_b.score) ++
              ")") "goal" (some "GOAL_PENALTY"))
        else st2
      if is_shootout_kick then (true, st3)
      else (true, { addScore st3 atk with possession := some dfn, zone := Zone.M })
    else
      let st3 := if st2.logging_enabled then
          (if is_shootout_kick then
            log_event st2 ("SAVED! " ++ goalkeeper.name ++ " denies " ++
              taker.name ++ "!") "high" (some "SHOOTOUT_KICK")
          else
            log_event st2 ("MISSED! " ++ taker.name ++ "'s penalty is saved or wide!")
              "miss" (some "MISS_PENALTY"))
        else st2
      if is_shootout_kick then (false, st3)
      else (false, { st3 with possession := some dfn, zone := Zone.M })
  | _, _ => (false, st)

/-- Method `MatchSimulator.resolve_attack`. -/
noncomputable def resolve_attack (o : Oracle) (st : SimState) (atk dfn : Side)
    (defense_modifier : ℚ) : SimState :=
  let attacker := st.teamOf atk
  let defender := st.teamOf dfn
  let att_str := attacker.zonal_strength Position.FORWARD
  let pure_def := defender.zonal_strength Position.DEFENDER
  let gk_str := defender.zonal_strength Position.GOALKEEPER
  let def_gate := ((1 - DEF_GK_BLEND) * pure_def + DEF_GK_BLEND * gk_str) * defense_modifier
  let prob := logistic_probability (att_str : ℝ) (def_gate : ℝ) ((ATTACK_SCALING : ℚ) : ℝ)
  let rr := randFloat o st
  let roll := rr.1
  let st1 := rr.2
  if (roll : ℝ) < prob then
    let st2 := if st1.logging_enabled then
        log_event st1 (attacker.team.name ++ " creates a chance!") "normal"
          (some "SHOT_OPPORTUNITY")
      else st1
    resolve_shot o st2 atk dfn
  else
    let rq := randFloat o st1
    let proll := rq.1
    let st2 := rq.2
    if proll < PENALTY_AWARD_PROBABILITY then
      let st3 := log_event st2 ("PENALTY to " ++ attacker.team.name ++ "!") "high"
        (some "PENALTY_AWARDED")
      (resolve_penalty_kick o st3 atk dfn none false).2
    else
      let st3 := { st2 with possession := some dfn, zone := Zone.M }
      if st3.logging_enabled then
        log_event st3 (defender.team.name ++ "'s defense holds firm.") "normal"
          (some "DEFENSIVE_STOP")
      else st3

/-- Method `MatchSimulator.resolve_direct_free_kick`.  With a missing taker
or goalkeeper it returns the state untouched. -/
noncomputable def resolve_direct_free_kick (o : Oracle) (st : SimState)
    (atk dfn : Side) (zone : FKZone) : SimState :=
  let attacker := st.teamOf atk
  let defender := st.teamOf dfn
  match attacker.best_fk_taker, defender.get_goalkeeper with
  | some taker, some goalkeeper =>
    let st1 := log_event st (taker.name ++ " steps up to take the direct free kick.")
      "high" (some "DIRECT_FK")
    let final_conv_factor := FK_GOAL_CONVERSION_FACTOR_BASE * fk_dist_factor zone
    let rg := goal_probability o st1 taker.effective_fk_ability
      goalkeeper.effective_skill FK_SHOT_SCALING final_conv_factor
    let prob := rg.1
    let st2 := rg.2
    let rr := randFloat o st2
    let roll := rr.1
    let st3 := rr.2
    if (roll : ℝ) < prob then
      let st4 := addScore st3 atk
      let st5 := if st4.logging_enabled then
          log_event st4 ("GOAL! " ++ taker.name ++ "! (" ++
            toString st4.team_a.score ++ "-" ++ toString st4.team_b.score ++ ")")
            "goal" (some "GOAL_FK")
        else st4
      { st5 with possession := some dfn, zone := Zone.M }
    else
      let st4 := if st3.logging_enabled then
          log_event st3 "NO GOAL! The free kick is saved or missed." "miss"
            (some "MISS_FK")
        else st3
      { st4 with possession := some dfn, zone := Zone.M }
  | _, _ => st

/-- Method `MatchSimulator.resolve_free_kick`. -/
noncomputable def resolve_free_kick (o : Oracle) (st : SimState) (e : FKEvent) : SimState :=
  let atk := e.team
  let dfn := other e.team
  let attacker := st.teamOf atk
  let zdata := FK_ZONES e.zone
  let p_direct := zdata.2.1
  let p_indirect_attack := zdata.2.2.1
  let def_mod := zdata.2.2.2
  let st1 := log_event st ("Free Kick to " ++ attacker.team.name ++ " in a " ++
    fkZoneLower e.zone ++ " position.") "set_piece" (some "FREE_KICK")
  let rr := randFloat o st1
  let action_roll := rr.1
  let st2 := rr.2
  if action_roll < p_direct then
    resolve_direct_free_kick o st2 atk dfn e.zone
  else if action_roll < p_direct + p_indirect_attack then
    let st3 := log_event st2 (attacker.team.name ++
      " sends a cross or pass into the attacking zone.") "normal"
      (some "INDIRECT_FK_ATTACK")
    let st4 := { st3 with
      possession := some atk
      zone := if atk = Side.A then Zone.A else Zone.B }
    resolve_attack o st4 atk dfn def_mod
  else
    let st3 := log_event st2 (attacker.team.name ++ " restarts play safely.")
      "minor" (some "FK_RESTART")
    { st3 with possession := some atk, zone := Zone.M }

/-- Method `MatchSimulator.resolve_midfield_battle`. -/
noncomputable def resolve_midfield_battle (o : Oracle) (st : SimState) : SimState :=
  match st.possession with
  | none => st
  | some poss =>
    let attacker := st.teamOf poss
    let defender := st.teamOf (other poss)
    let att_str := attacker.zonal_strength Position.MIDFIELDER
    let def_str := defender.zonal_strength Position.MIDFIELDER
    let prob := logistic_probability (att_str : ℝ) (def_str : ℝ) ((MIDFIELD_SCALING : ℚ) : ℝ)
    let rr := randFloat o st
    let roll := rr.1
    let st1 := rr.2
    if (roll : ℝ) < prob then
      let st2 := { st1 with zone := if poss = Side.A then Zone.A else Zone.B }
      if st2.logging_enabled then
        log_event st2 (attacker.team.name ++ " advances.") "normal" none
      else st2
    else
      let st2 := { st1 with possession := some (other poss) }
      if st2.logging_enabled then
        log_event st2 (defender.team.name ++ " wins the ball.") "normal" none
      else st2

/-- Method `MatchSimulator.process_event`. -/
noncomputable def process_event (o : Oracle) (st : SimState) : SimState :=
  let st0 := match st.possession with
    | none =>
      let rs := randSide o st
      { rs.2 with possession := some rs.1 }
    | some _ => st
  match st0.zone with
  | Zone.M => resolve_midfield_battle o st0
  | Zone.A => resolve_attack o st0 Side.A Side.B 1
  | Zone.B => resolve_attack o st0 Side.B Side.A 1

/-- Inner while-loop of `MatchSimulator._process_scheduled_free_kicks`,
structurally recursive on the event queue.  The state's queue field is kept
in lock-step with the list argument (event resolution never touches it). -/
noncomputable def process_fks_go (o : Oracle) : List FKEvent → SimState → SimState
  | [], st => st
  | e :: rest, st =>
    if e.minute ≤ st.minute then
      process_fks_go o rest
        (resolve_free_kick o { st with minute := e.minute, free_kick_events := rest } e)
    else st

/-- Method `MatchSimulator._process_scheduled_free_kicks`. -/
noncomputable def process_scheduled_free_kicks (o : Oracle) (st : SimState) : SimState :=
  process_fks_go o st.free_kick_events st

end Football

namespace Football

/-- Main while-loop of `MatchSimulator.simulate` (clock advance, halftime
marker, one event per tick), fuel-indexed; `loop_fuel` below always suffices
to drive the clock to minute 90. -/
noncomputable def sim_loop (o : Oracle) : ℕ → SimState → SimState
  | 0, st => st
  | fuel + 1, st =>
    if st.minute < 90 then
      let st1 := process_scheduled_free_kicks o st
      if 90 ≤ st1.minute then st1
      else
        let rn := randNat o st1 1 6
        let inc := rn.1
        let st2 := rn.2
        let last_minute := st2.minute
        let st3 := { st2 with minute := min (st2.minute + inc) 90 }
        let st4 := if st3.logging_enabled = true ∧ last_minute < 45 ∧ 45 ≤ st3.minute then
            log_event st3 "Halftime" "info" none
          else st3
        sim_loop o fuel (process_event o st4)
    else st

/-- Fuel that provably drives the 90-minute loop to completion: each
iteration either consumes a queued free kick or advances the clock. -/
def loop_fuel (st : SimState) : ℕ := 91 * (st.free_kick_events.length + 1)

/-- Regulation play of `MatchSimulator.simulate`: kickoff log, the 90-minute
loop, and the full-time log. -/
noncomputable def after_regulation (o : Oracle) (st : SimState) : SimState :=
  let st1 := if st.logging_enabled then
      log_event st ("Kickoff! (Total FKs scheduled: " ++
        toString st.free_kick_events.length ++ ")") "info" none
    else st
  let st2 := sim_loop o (loop_fuel st1) st1
  if st2.logging_enabled then
    log_event st2 ("Full Time! Final score: " ++ toString st2.team_a.score ++
      " - " ++ toString st2.team_b.score) "final" none
  else st2

/-- Round-robin best-of-five phase of `MatchSimulator.resolve_shootout`
(`for i in range(5)` with the two early-stop breaks); first argument is the
number of loop iterations left, second the Python loop index `i`.  `none`
models the `IndexError` the Python code would raise on a too-short kicker
list. -/
noncomputable def shootout_rounds (o : Oracle) (takersA takersB : List Player) :
    ℕ → ℕ → SimState → Option SimState
  | 0, _, st => some st
  | n + 1, i, st =>
    let st1 := log_event st ("--- Shootout Round " ++ toString (i + 1) ++ " ---")
      "info" none
    match takersA.get? i with
    | none => none
    | some tA =>
      let ra := resolve_penalty_kick o st1 Side.A Side.B (some tA) true
      let goalA := ra.1
      let st2 := ra.2
      let st3 := if goalA then
          { st2 with shootout_score_a := st2.shootout_score_a + 1 } else st2
      if st3.shootout_score_a > st3.shootout_score_b + (5 - i) ∨
          st3.shootout_score_b > st3.shootout_score_a + (4 - i) then some st3
      else
        match takersB.get? i with
        | none => none
        | some tB =>
          let rb := resolve_penalty_kick o st3 Side.B Side.A (some tB) true
          let goalB := rb.1
          let st4 := rb.2
          let st5 := if goalB then
              { st4 with shootout_score_b := st4.shootout_score_b + 1 } else st4
          let st6 := log_event st5 ("Score: " ++ st5.team_a.team.name ++ " " ++
            toString st5.shootout_score_a ++ " - " ++ toString st5.shootout_score_b ++
            " " ++ st5.team_b.team.name) "info" none
          if st6.shootout_score_a > st6.shootout_score_b + (4 - i) ∨
              st6.shootout_score_b > st6.shootout_score_a + (4 - i) then some st6
          else shootout_rounds o takersA takersB n (i + 1) st6

/-- Sudden-death while-loop of `MatchSimulator.resolve_shootout`,
fuel-indexed since the Python loop need not terminate; `none` also models
the error Python raises when a kicker list is empty. -/
noncomputable def sudden_death (o : Oracle) (remA remB : List Player) :
    ℕ → ℕ → SimState → Option SimState
  | 0, _, _ => none
  | fuel + 1, round_num, st =>
    if st.shootout_score_a = st.shootout_score_b then
      let st1 := log_event st ("--- Sudden Death Round " ++ toString (round_num + 1) ++
        " ---") "info" none
      match remA.get? (round_num % remA.length), remB.get? (round_num % remB.length) with
      | some tA, some tB =>
        let ra := resolve_penalty_kick o st1 Side.A Side.B (some tA) true
        let goalA := ra.1
        let st2 := ra.2
        let rb := resolve_penalty_kick o st2 Side.B Side.A (some tB) true
        let goalB := rb.1
        let st3 := rb.2
        let st4 := if goalA then
            { st3 with shootout_score_a := st3.shootout_score_a + 1 } else st3
        let st5 := if goalB then
            { st4 with shootout_score_b := st4.shootout_score_b + 1 } else st4
        let st6 := log_event st5 ("Score: " ++ st5.team_a.team.name ++ " " ++
          toString st5.shootout_score_a ++ " - " ++ toString st5.shootout_score_b ++
          " " ++ st5.team_b.team.name) "info" none
        sudden_death o remA remB fuel (round_num + 1) st6
      | _, _ => none
    else some st

/-- Python `sorted(players, key=penalty_taking, reverse=True)` (stable). -/
def pysort_desc_pen (ps : List Player) : List Player :=
  ps.mergeSort (fun p q => decide (q.penalty_taking ≤ p.penalty_taking))

/-- Closing lines of `MatchSimulator.resolve_shootout`: record the winner's
name and log the final shootout score. -/
noncomputable def shootout_finish (st4 : SimState) : SimState :=
  let winner := if st4.shootout_score_a > st4.shootout_score_b then
      st4.team_a.team.name else st4.team_b.team.name
  let st5 := { st4 with winner_on_penalties := some winner }
  log_event st5 (winner ++ " wins the shootout " ++
    toString st5.shootout_score_a ++ "-" ++ toString st5.shootout_score_b ++ "!")
    "final" (some "SHOOTOUT_END")

/-- Tail of `MatchSimulator.resolve_shootout` after the best-of-five phase:
sudden death if still level, then the finish.  (The sudden-death kicker
lists are pure values; they are computed by the caller.) -/
noncomputable def shootout_tail (o : Oracle) (fuel : ℕ) (remA remB : List Player)
    (st2 : SimState) : Option SimState :=
  (if st2.shootout_score_a = st2.shootout_score_b then
    sudden_death o remA remB fuel 0 (log_event st2 "--- Sudden Death ---" "info" none)
  else some st2).map shootout_finish

/-- Python `rem_a = [p for p in players if p not in takers] or takers`. -/
def shootout_rem (players takers : List Player) : List Player :=
  let r := players.filter (fun p => !(takers.contains p))
  if r.isEmpty then takers else r

/-- Method `MatchSimulator.resolve_shootout`, fuel-indexed through the
sudden-death loop. -/
noncomputable def resolve_shootout (o : Oracle) (fuel : ℕ) (st : SimState) :
    Option SimState :=
  let st1 := log_event st
    "The match is drawn. A penalty shootout will decide the winner!" "final"
    (some "SHOOTOUT_START")
  let team_a_players := st1.team_a.get_starting_11.filter
    (fun p => !(p.position == Position.GOALKEEPER))
  let team_b_players := st1.team_b.get_starting_11.filter
    (fun p => !(p.position == Position.GOALKEEPER))
  let team_a_takers := (pysort_desc_pen team_a_players).take 5
  let team_b_takers := (pysort_desc_pen team_b_players).take 5
  (shootout_rounds o team_a_takers team_b_takers 5 0 st1).bind
    (shootout_tail o fuel (shootout_rem team_a_players team_a_takers)
      (shootout_rem team_b_players team_b_takers))

/-- Result dict of `MatchSimulator.get_results`. -/
structure SimResult where
  log : List LogEntry
  score_a : ℕ
  score_b : ℕ
  team_a_name : String
  team_b_name : String
  shootout_score_a : ℕ
  shootout_score_b : ℕ
  winner_on_penalties : Option String
deriving DecidableEq, Repr

/-- Method `MatchSimulator.get_results`. -/
def get_results (st : SimState) : SimResult :=
  { log := st.log
    score_a := st.team_a.score
    score_b := st.team_b.score
    team_a_name := st.team_a.team.name
    team_b_name := st.team_b.team.name
    shootout_score_a := st.shootout_score_a
    shootout_score_b := st.shootout_score_b
    winner_on_penalties := st.winner_on_penalties }

/-- Method `MatchSimulator.simulate`.  `shootout_fuel` bounds only the
sudden-death loop; `none` means that loop has not terminated within the fuel
(the Python call would still be running). -/
noncomputable def simulate (o : Oracle) (shootout_fuel : ℕ) (st : SimState) :
    Option SimResult :=
  if st.team_a.get_starting_11.length < 11 ∨ st.team_b.get_starting_11.length < 11 then
    some (get_results
      (log_event st "Match abandoned due to insufficient players." "error" none))
  else
    let st3 := after_regulation o st
    if st3.is_knockout = true ∧ st3.team_a.score = st3.team_b.score then
      (resolve_shootout o shootout_fuel st3).map get_results
    else some (get_results st3)

/-- Python `int(x)` (truncation toward zero) on rationals. -/
def ratTrunc (q : ℚ) : ℤ := q.num / (q.den : ℤ)

/-- Zone pick of `random.choices(zone_names, weights=likelihoods)`: the
weights 0.25 / 0.50 / 0.17 / 0.08 total 1.0, and Python picks the first zone
whose cumulative weight exceeds `random() * 1.0`. -/
def pick_fk_zone (u : ℚ) : FKZone :=
  if u < 0.25 then FKZone.DEEP
  else if u < 0.75 then FKZone.MIDDLE
  else if u < 0.92 then FKZone.ATTACKING
  else FKZone.DANGEROUS

/-- Constructor `MatchSimulator.__init__` together with
`_generate_free_kicks`: build both `MatchTeam`s, draw the opening
possession, pre-generate the sorted free-kick schedule, and start the rng
cursors past the draws consumed here. -/
def mk_simulator (o : Oracle) (team_a_model team_b_model : TeamModel)
    (logging_enabled : Bool) (fixed_a_ids fixed_b_ids : Option (List ℕ))
    (is_knockout : Bool) : SimState :=
  let team_a := mkMatchTeam team_a_model true fixed_a_ids
  let team_b := mkMatchTeam team_b_model false fixed_b_ids
  let poss := if o.nats 0 % 2 = 0 then Side.A else Side.B
  let num_kicks : ℕ := (max 10 (ratTrunc (o.gauss 0))).toNat
  let events := (List.range num_kicks).map (fun k =>
    FKEvent.mk (1 + o.nats (1 + k) % 90)
      (if o.floats (2 * k) < 0.5 then Side.A else Side.B)
      (pick_fk_zone (o.floats (2 * k + 1))))
  { team_a := team_a
    team_b := team_b
    logging_enabled := logging_enabled
    is_knockout := is_knockout
    log := []
    minute := 0
    zone := Zone.M
    possession := some poss
    free_kick_events := events.mergeSort (fun e1 e2 => decide (e1.minute ≤ e2.minute))
    shootout_score_a := 0
    shootout_score_b := 0
    winner_on_penalties := none
    rngF := 2 * num_kicks
    rngN := 1 + num_kicks }

end Football

namespace Football

/-- C2 (amended): whenever either side's selected starting lineup has fewer
than 11 players, `simulate` returns (never raises) a result with score 0-0
and no shootout data, whose log is a single error-tagged entry when logging
is enabled and is empty when logging is disabled -- for every oracle and
every shootout fuel. -/
theorem claim_C2 (o : Oracle) (fuel : ℕ) (ta tb : TeamModel)
    (logging knockout : Bool) (fa fb : Option (List ℕ))
    (hshort : (mkMatchTeam ta true fa).get_starting_11.length < 11 ∨
      (mkMatchTeam tb false fb).get_starting_11.length < 11) :
    simulate o fuel (mk_simulator o ta tb logging fa fb knockout) =
      some
        { log := if logging then
            [LogEntry.mk 0 "Match abandoned due to insufficient players." "error" none]
          else []
          score_a := 0
          score_b := 0
          team_a_name := ta.name
          team_b_name := tb.name
          shootout_score_a := 0
          shootout_score_b := 0
          winner_on_penalties := none } := by
  rw [simulate]
  have hshort' :
      (mk_simulator o ta tb logging fa fb knockout).team_a.get_starting_11.length < 11 ∨
      (mk_simulator o ta tb logging fa fb knockout).team_b.get_starting_11.length < 11 :=
    hshort
  rw [if_pos hshort']
  cases logging
  · rfl
  · rfl

/-- Goalkeeper roster used in small concrete simulations. -/
def wGK : Player :=
  { id := 1, name := "GK", position := Position.GOALKEEPER, skill := 50,
    free_kick_ability := 50, penalty_taking := 50, penalty_saving := 50,
    shape := 100, morale := 80, personality := Personality.PROFESSIONAL }

/-- One-player roster that cannot field eleven. -/
def c2_team : TeamModel := { name := "Shorties", players := [wGK] }

/-- Deterministic oracle with all streams constant. -/
def c2_oracle : Oracle := { floats := fun _ => 0, nats := fun _ => 0, gauss := fun _ => 1 }

/-- C2 counterexample: with logging disabled, the abandoned-match result has
an empty log rather than the single error-tagged entry the claim requires
for every value of the logging flag. -/
theorem claim_C2_counterexample :
    simulate c2_oracle 0
        (mk_simulator c2_oracle c2_team c2_team false (some [1]) (some [1]) false) =
      some
        { log := []
          score_a := 0
          score_b := 0
          team_a_name := "Shorties"
          team_b_name := "Shorties"
          shootout_score_a := 0
          shootout_score_b := 0
          winner_on_penalties := none } ∧
    ([] : List LogEntry).length ≠ 1 := by
  constructor
  · rfl
  · decide

/-- C2 witness: the amended theorem instantiated on the one-player roster
with logging enabled. -/
theorem claim_C2_witness :
    ((mkMatchTeam c2_team true (some [1])).get_starting_11.length < 11 ∨
      (mkMatchTeam c2_team false (some [1])).get_starting_11.length < 11) ∧
    simulate c2_oracle 3 (mk_simulator c2_oracle c2_team c2_team true
        (some [1]) (some [1]) true) =
      some
        { log :=
            [LogEntry.mk 0 "Match abandoned due to insufficient players." "error" none]
          score_a := 0
          score_b := 0
          team_a_name := "Shorties"
          team_b_name := "Shorties"
          shootout_score_a := 0
          shootout_score_b := 0
          winner_on_penalties := none } :=
  ⟨Or.inl (by decide),
    claim_C2 c2_oracle 3 c2_team c2_team true true (some [1]) (some [1])
      (Or.inl (by decide))⟩

end Football

namespace Football

/-- Canonical form of `log_event` as a single record update. -/
lemma log_event_eq (st : SimState) (m i : String) (e : Option String) :
    log_event st m i e = { st with log := st.log ++
      (if st.logging_enabled = true then [LogEntry.mk st.minute m i e] else []) } := by
  unfold log_event
  split_ifs with h
  · rfl
  · simp

/-- State returned by `get_random_player` differs from the input state at
most in the rng cursor. -/
lemma get_random_player_snd_frame (t : MatchTeam) (o : Oracle) (st : SimState)
    (pos : List Position) :
    ((get_random_player t o st pos).2).log = st.log ∧
    ((get_random_player t o st pos).2).team_a = st.team_a ∧
    ((get_random_player t o st pos).2).team_b = st.team_b := by
  simp only [get_random_player]
  split_ifs <;> exact ⟨rfl, rfl, rfl⟩

/-- C7 (amended): with a missing shooter or goalkeeper, `resolve_shot` skips
resolution, transfers possession to the defender, resets the zone to
midfield and leaves log and scores untouched; `resolve_direct_free_kick` and
in-match `resolve_penalty_kick` with a missing taker or goalkeeper skip
resolution but return the state entirely unchanged (no possession transfer,
no zone reset). -/
theorem claim_C7 :
    (∀ (o : Oracle) (st : SimState) (atk dfn : Side),
      ((st.teamOf atk).lineup Position.FORWARD = [] ∧
        (st.teamOf atk).lineup Position.MIDFIELDER = []) ∨
        (st.teamOf dfn).get_goalkeeper = none →
      (resolve_shot o st atk dfn).possession = some dfn ∧
      (resolve_shot o st atk dfn).zone = Zone.M ∧
      (resolve_shot o st atk dfn).log = st.log ∧
      (resolve_shot o st atk dfn).team_a.score = st.team_a.score ∧
      (resolve_shot o st atk dfn).team_b.score = st.team_b.score) ∧
    (∀ (o : Oracle) (st : SimState) (atk dfn : Side) (z : FKZone),
      (st.teamOf atk).best_fk_taker = none ∨ (st.teamOf dfn).get_goalkeeper = none →
      resolve_direct_free_kick o st atk dfn z = st) ∧
    (∀ (o : Oracle) (st : SimState) (atk dfn : Side),
      (st.teamOf atk).best_penalty_taker = none ∨
        (st.teamOf dfn).get_goalkeeper = none →
      resolve_penalty_kick o st atk dfn none false = (false, st)) := by
  refine ⟨?_, ?_, ?_⟩
  · intro o st atk dfn h
    rcases h with ⟨hf, hm⟩ | hg
    · have hc : get_random_player (st.teamOf atk) o st
          [Position.FORWARD, Position.MIDFIELDER] = (none, st) := by
        unfold get_random_player
        simp [hf, hm]
      simp [resolve_shot, hc]
    · have key : ∀ pr : Option Player × SimState,
          get_random_player (st.teamOf atk) o st
            [Position.FORWARD, Position.MIDFIELDER] = pr →
          resolve_shot o st atk dfn =
            { pr.2 with possession := some dfn, zone := Zone.M } := by
        rintro ⟨s?, st1⟩ hpr
        rcases s? with _ | s
        · simp [resolve_shot, hpr]
        · simp [resolve_shot, hpr, hg]
      rw [key _ rfl]
      obtain ⟨h1, h2, h3⟩ := get_random_player_snd_frame (st.teamOf atk) o st
        [Position.FORWARD, Position.MIDFIELDER]
      exact ⟨rfl, rfl, h1, by rw [h2], by rw [h3]⟩
  · intro o st atk dfn z h
    rcases h with htk | hg
    · simp [resolve_direct_free_kick, htk]
    · cases htk : (st.teamOf atk).best_fk_taker
      · simp [resolve_direct_free_kick, htk]
      · simp [resolve_direct_free_kick, htk, hg]
  · intro o st atk dfn h
    rcases h with htk | hg
    · simp [resolve_penalty_kick, htk]
    · cases htk : (st.teamOf atk).best_penalty_taker
      · simp [resolve_penalty_kick, htk]
      · simp [resolve_penalty_kick, htk, hg]

/-- Attacker roster of the C7 concrete state: one forward. -/
def c7A : MatchTeam :=
  mkMatchTeam
    { name := "A7", players := [{ wGK with id := 1, position := Position.FORWARD }] }
    true (some [1])

/-- Defender roster of the C7 concrete state: one defender, no goalkeeper. -/
def c7B : MatchTeam :=
  mkMatchTeam
    { name := "B7", players := [{ wGK with id := 2, position := Position.DEFENDER }] }
    false (some [2])

/-- Mid-match state in which side A holds possession in its attacking zone
and side B has no goalkeeper. -/
def c7_state : SimState :=
  { team_a := c7A
    team_b := c7B
    logging_enabled := true
    is_knockout := false
    log := []
    minute := 30
    zone := Zone.A
    possession := some Side.A
    free_kick_events := []
    shootout_score_a := 0
    shootout_score_b := 0
    winner_on_penalties := none
    rngF := 0
    rngN := 0 }

/-- C7 counterexample: a direct free kick against a side with no goalkeeper
returns the state entirely unchanged -- possession stays with the attacker
and the zone stays at 'A', contradicting the claimed possession transfer and
zone reset. -/
theorem claim_C7_counterexample :
    resolve_direct_free_kick c2_oracle c7_state Side.A Side.B FKZone.DANGEROUS =
      c7_state ∧
    (resolve_direct_free_kick c2_oracle c7_state Side.A Side.B
      FKZone.DANGEROUS).possession = some Side.A ∧
    (resolve_direct_free_kick c2_oracle c7_state Side.A Side.B
      FKZone.DANGEROUS).possession ≠ some Side.B ∧
    (resolve_direct_free_kick c2_oracle c7_state Side.A Side.B
      FKZone.DANGEROUS).zone ≠ Zone.M := by
  have h : resolve_direct_free_kick c2_oracle c7_state Side.A Side.B
      FKZone.DANGEROUS = c7_state := rfl
  refine ⟨h, ?_, ?_, ?_⟩ <;> rw [h] <;> decide

/-- C7 witness: the amended theorem applied to the concrete no-goalkeeper
state, for the shot part and the in-match penalty part. -/
theorem claim_C7_witness :
    (c7_state.teamOf Side.B).get_goalkeeper = none ∧
    ((resolve_shot c2_oracle c7_state Side.A Side.B).possession = some Side.B ∧
      (resolve_shot c2_oracle c7_state Side.A Side.B).zone = Zone.M ∧
      (resolve_shot c2_oracle c7_state Side.A Side.B).log = c7_state.log ∧
      (resolve_shot c2_oracle c7_state Side.A Side.B).team_a.score =
        c7_state.team_a.score ∧
      (resolve_shot c2_oracle c7_state Side.A Side.B).team_b.score =
        c7_state.team_b.score) ∧
    resolve_penalty_kick c2_oracle c7_state Side.A Side.B none false =
      (false, c7_state) :=
  ⟨by decide,
    claim_C7.1 c2_oracle c7_state Side.A Side.B (Or.inr (by decide)),
    claim_C7.2.2 c2_oracle c7_state Side.A Side.B (Or.inr (by decide))⟩

end Football

namespace Football

/-- Both `MatchTeam` objects (hence both regulation scores) are untouched. -/
def teams_fixed (st st' : SimState) : Prop :=
  st'.team_a = st.team_a ∧ st'.team_b = st.team_b

lemma teams_fixed_refl (st : SimState) : teams_fixed st st := ⟨rfl, rfl⟩

lemma teams_fixed_trans {s1 s2 s3 : SimState} (h12 : teams_fixed s1 s2)
    (h23 : teams_fixed s2 s3) : teams_fixed s1 s3 :=
  ⟨h23.1.trans h12.1, h23.2.trans h12.2⟩

lemma teams_fixed_log_event (st : SimState) (m i : String) (e : Option String) :
    teams_fixed st (log_event st m i e) := by
  rw [log_event_eq]
  exact ⟨rfl, rfl⟩

/-- A shootout kick (`is_shootout_kick=True`) never touches either
`MatchTeam`, in particular neither regulation score. -/
lemma teams_fixed_rpk_shootout (o : Oracle) (st : SimState) (atk dfn : Side)
    (tk : Option Player) :
    teams_fixed st ((resolve_penalty_kick o st atk dfn tk true).2) := by
  rcases htk : (match tk with
    | none => (st.teamOf atk).best_penalty_taker
    | some t => some t) with _ | taker
  · simp only [resolve_penalty_kick, htk]
    exact teams_fixed_refl st
  · rcases hgk : (st.teamOf dfn).get_goalkeeper with _ | gk
    · simp only [resolve_penalty_kick, htk, hgk]
      exact teams_fixed_refl st
    · simp only [resolve_penalty_kick, htk, hgk, goal_probability, randUniform,
        randFloat, log_event_eq]
      split_ifs <;> exact ⟨rfl, rfl⟩

end Football


namespace Football

@[simp] lemma log_event_team_a (st : SimState) (m i : String) (e : Option String) :
    (log_event st m i e).team_a = st.team_a := by rw [log_event_eq]

@[simp] lemma log_event_team_b (st : SimState) (m i : String) (e : Option String) :
    (log_event st m i e).team_b = st.team_b := by rw [log_event_eq]

@[simp] lemma rpk_true_team_a (o : Oracle) (st : SimState) (atk dfn : Side)
    (tk : Option Player) :
    ((resolve_penalty_kick o st atk dfn tk true).2).team_a = st.team_a :=
  (teams_fixed_rpk_shootout o st atk dfn tk).1

@[simp] lemma rpk_true_team_b (o : Oracle) (st : SimState) (atk dfn : Side)
    (tk : Option Player) :
    ((resolve_penalty_kick o st atk dfn tk true).2).team_b = st.team_b :=
  (teams_fixed_rpk_shootout o st atk dfn tk).2

/-- The best-of-five phase leaves both `MatchTeam` objects untouched. -/
lemma shootout_rounds_teams (o : Oracle) (tA tB : List Player) :
    ∀ (n i : ℕ) (st st' : SimState),
      shootout_rounds o tA tB n i st = some st' → teams_fixed st st' := by
  intro n
  induction n with
  | zero =>
    intro i st st' h
    rw [shootout_rounds] at h
    injection h with h
    subst h
    exact teams_fixed_refl st
  | succ n ih =>
    intro i st st' h
    rw [shootout_rounds] at h
    rcases htA : tA.get? i with _ | kA <;>
      rcases htB : tB.get? i with _ | kB <;>
      simp only [htA, htB] at h <;>
      try split_ifs at h
    all_goals first
      | exact Option.noConfusion h
      | (injection h with h; subst h; exact ⟨by simp, by simp⟩)
      | exact teams_fixed_trans ⟨by simp, by simp⟩ (ih _ _ _ h)

/-- The sudden-death phase leaves both `MatchTeam` objects untouched. -/
lemma sudden_death_teams (o : Oracle) (rA rB : List Player) :
    ∀ (fuel round_num : ℕ) (st st' : SimState),
      sudden_death o rA rB fuel round_num st = some st' → teams_fixed st st' := by
  intro fuel
  induction fuel with
  | zero =>
    intro rn st st' h
    rw [sudden_death] at h
    exact Option.noConfusion h
  | succ n ih =>
    intro rn st st' h
    rw [sudden_death] at h
    split_ifs at h
    · rcases hrA : rA.get? (rn % rA.length) with _ | kA <;>
        rcases hrB : rB.get? (rn % rB.length) with _ | kB <;>
        simp only [hrA, hrB] at h <;>
        try split_ifs at h
      all_goals first
        | exact Option.noConfusion h
        | (injection h with h; subst h; exact ⟨by simp, by simp⟩)
        | exact teams_fixed_trans ⟨by simp, by simp⟩ (ih _ _ _ h)
    · injection h with h
      subst h
      exact teams_fixed_refl st

@[simp] lemma shootout_finish_team_a (st : SimState) :
    (shootout_finish st).team_a = st.team_a := by
  simp [shootout_finish]

@[simp] lemma shootout_finish_team_b (st : SimState) :
    (shootout_finish st).team_b = st.team_b := by
  simp [shootout_finish]

lemma shootout_tail_teams (o : Oracle) (fuel : ℕ) (remA remB : List Player)
    (st2 st' : SimState) (h : shootout_tail o fuel remA remB st2 = some st') :
    teams_fixed st2 st' := by
  rw [shootout_tail] at h
  split_ifs at h with htied
  · rcases hsd : sudden_death o remA remB fuel 0
        (log_event st2 "--- Sudden Death ---" "info" none) with _ | st4 <;>
      rw [hsd] at h
    · exact Option.noConfusion h
    · simp only [Option.map_some'] at h
      injection h with h
      subst h
      exact teams_fixed_trans
        (teams_fixed_trans (teams_fixed_log_event st2 _ _ _)
          (sudden_death_teams o remA remB fuel 0 _ st4 hsd))
        ⟨by simp, by simp⟩
  · simp only [Option.map_some'] at h
    injection h with h
    subst h
    exact ⟨by simp, by simp⟩

/-- Whole-shootout frame: when `resolve_shootout` completes, both
`MatchTeam` objects (hence both regulation scores) are unchanged. -/
lemma resolve_shootout_teams (o : Oracle) (fuel : ℕ) (st st' : SimState)
    (h : resolve_shootout o fuel st = some st') : teams_fixed st st' := by
  rw [resolve_shootout] at h
  have key : ∀ (X Y U V : List Player) (Z : SimState), teams_fixed st Z →
      (shootout_rounds o X Y 5 0 Z).bind (shootout_tail o fuel U V) = some st' →
      teams_fixed st st' := by
    intro X Y U V Z hZ hh
    rcases hr : shootout_rounds o X Y 5 0 Z with _ | st2 <;> rw [hr] at hh
    · exact Option.noConfusion hh
    · simp only [Option.some_bind] at hh
      exact teams_fixed_trans
        (teams_fixed_trans hZ (shootout_rounds_teams o X Y 5 0 Z st2 hr))
        (shootout_tail_teams o fuel U V st2 st' hh)
  exact key _ _ _ _ _ (teams_fixed_log_event st _ _ _) h

/-- C5: shootout penalty kicks never modify either team's in-regulation
score: whenever `resolve_shootout` completes, `team_a.score` and
`team_b.score` equal their values at the end of the 90 minutes.  (The
`Option.all` form is vacuously true when the sudden-death loop has not
finished within the fuel.) -/
theorem claim_C5 (o : Oracle) (fuel : ℕ) (st : SimState) :
    (resolve_shootout o fuel st).all
      (fun st' => st'.team_a.score == st.team_a.score &&
        st'.team_b.score == st.team_b.score) = true := by
  rcases h : resolve_shootout o fuel st with _ | st'
  · rfl
  · have ht := resolve_shootout_teams o fuel st st' h
    simp [Option.all, ht.1, ht.2]

end Football

namespace Football

@[simp] lemma log_event_shootout_a (st : SimState) (m i : String) (e : Option String) :
    (log_event st m i e).shootout_score_a = st.shootout_score_a := by rw [log_event_eq]

@[simp] lemma log_event_shootout_b (st : SimState) (m i : String) (e : Option String) :
    (log_event st m i e).shootout_score_b = st.shootout_score_b := by rw [log_event_eq]

@[simp] lemma log_event_winner (st : SimState) (m i : String) (e : Option String) :
    (log_event st m i e).winner_on_penalties = st.winner_on_penalties := by
  rw [log_event_eq]

@[simp] lemma shootout_finish_ssa (st : SimState) :
    (shootout_finish st).shootout_score_a = st.shootout_score_a := by
  simp [shootout_finish]

@[simp] lemma shootout_finish_ssb (st : SimState) :
    (shootout_finish st).shootout_score_b = st.shootout_score_b := by
  simp [shootout_finish]

@[simp] lemma shootout_finish_winner (st : SimState) :
    (shootout_finish st).winner_on_penalties.isSome = true := by
  simp [shootout_finish]

/-- Sudden death only ever completes with the tallies unequal. -/
lemma sudden_death_ne (o : Oracle) (rA rB : List Player) :
    ∀ (fuel rn : ℕ) (st st' : SimState),
      sudden_death o rA rB fuel rn st = some st' →
      st'.shootout_score_a ≠ st'.shootout_score_b := by
  intro fuel
  induction fuel with
  | zero =>
    intro rn st st' h
    rw [sudden_death] at h
    exact Option.noConfusion h
  | succ n ih =>
    intro rn st st' h
    rw [sudden_death] at h
    split_ifs at h with htied
    · rcases hrA : rA.get? (rn % rA.length) with _ | kA <;>
        rcases hrB : rB.get? (rn % rB.length) with _ | kB <;>
        simp only [hrA, hrB] at h
      all_goals first
        | exact Option.noConfusion h
        | exact ih _ _ _ h
    · injection h with h
      subst h
      exact htied

/-- The tail of the shootout completes only with a winner recorded and the
tallies unequal. -/
lemma shootout_tail_prop (o : Oracle) (fuel : ℕ) (remA remB : List Player)
    (st2 st' : SimState) (h : shootout_tail o fuel remA remB st2 = some st') :
    st'.winner_on_penalties.isSome = true ∧
    st'.shootout_score_a ≠ st'.shootout_score_b := by
  rw [shootout_tail] at h
  split_ifs at h with htied
  · rcases hsd : sudden_death o remA remB fuel 0
        (log_event st2 "--- Sudden Death ---" "info" none) with _ | st4 <;>
      rw [hsd] at h
    · exact Option.noConfusion h
    · simp only [Option.map_some'] at h
      injection h with h
      subst h
      have hne := sudden_death_ne o remA remB fuel 0 _ st4 hsd
      exact ⟨by simp, by simpa using hne⟩
  · simp only [Option.map_some'] at h
    injection h with h
    subst h
    exact ⟨by simp, by simpa using htied⟩

/-- Whole-shootout version of `shootout_tail_prop`. -/
lemma resolve_shootout_prop (o : Oracle) (fuel : ℕ) (st st' : SimState)
    (h : resolve_shootout o fuel st = some st') :
    st'.winner_on_penalties.isSome = true ∧
    st'.shootout_score_a ≠ st'.shootout_score_b := by
  rw [resolve_shootout] at h
  have key : ∀ (X Y U V : List Player) (Z : SimState),
      (shootout_rounds o X Y 5 0 Z).bind (shootout_tail o fuel U V) = some st' →
      st'.winner_on_penalties.isSome = true ∧
      st'.shootout_score_a ≠ st'.shootout_score_b := by
    intro X Y U V Z hh
    rcases hr : shootout_rounds o X Y 5 0 Z with _ | st2 <;> rw [hr] at hh
    · exact Option.noConfusion hh
    · simp only [Option.some_bind] at hh
      exact shootout_tail_prop o fuel U V st2 st' hh
  exact key _ _ _ _ _ h

/-- C4 (amended): whenever the shootout terminates (the sudden-death loop
can fail to terminate for some draw sequences; see the counterexample), it
produces a non-null `winner_on_penalties` and shootout tallies in which
exactly one side strictly exceeds the other; and for a knockout match that
is level after regulation with both sides fielding eleven, `simulate` hands
the post-regulation state to `resolve_shootout`. -/
theorem claim_C4 :
    (∀ (o : Oracle) (fuel : ℕ) (st : SimState),
      (resolve_shootout o fuel st).all
        (fun s => s.winner_on_penalties.isSome &&
          xor (decide (s.shootout_score_b < s.shootout_score_a))
            (decide (s.shootout_score_a < s.shootout_score_b))) = true) ∧
    (∀ (o : Oracle) (fuel : ℕ) (st : SimState),
      ¬(st.team_a.get_starting_11.length < 11 ∨
        st.team_b.get_starting_11.length < 11) →
      (after_regulation o st).is_knockout = true →
      (after_regulation o st).team_a.score = (after_regulation o st).team_b.score →
      simulate o fuel st =
        (resolve_shootout o fuel (after_regulation o st)).map get_results) := by
  constructor
  · intro o fuel st
    rcases h : resolve_shootout o fuel st with _ | s
    · rfl
    · obtain ⟨hw, hne⟩ := resolve_shootout_prop o fuel st s h
      simp only [Option.all, hw, Bool.true_and]
      rcases Nat.lt_trichotomy s.shootout_score_a s.shootout_score_b with h1 | h1 | h1
      · simp [h1, Nat.lt_asymm h1]
      · exact absurd h1 hne
      · simp [h1, Nat.lt_asymm h1]
  · intro o fuel st h1 h2 h3
    rw [simulate, if_neg h1]
    simp only []
    rw [if_pos ⟨h2, h3⟩]

end Football

namespace Football

/-- Full frame of a shootout kick: only log and rng cursor can change. -/
lemma rpk_true_frame (o : Oracle) (st : SimState) (atk dfn : Side)
    (tk : Option Player) :
    ((resolve_penalty_kick o st atk dfn tk true).2).shootout_score_a =
      st.shootout_score_a ∧
    ((resolve_penalty_kick o st atk dfn tk true).2).shootout_score_b =
      st.shootout_score_b ∧
    ((resolve_penalty_kick o st atk dfn tk true).2).winner_on_penalties =
      st.winner_on_penalties ∧
    ((resolve_penalty_kick o st atk dfn tk true).2).is_knockout = st.is_knockout ∧
    ((resolve_penalty_kick o st atk dfn tk true).2).logging_enabled =
      st.logging_enabled ∧
    ((resolve_penalty_kick o st atk dfn tk true).2).minute = st.minute ∧
    ((resolve_penalty_kick o st atk dfn tk true).2).free_kick_events =
      st.free_kick_events ∧
    ((resolve_penalty_kick o st atk dfn tk true).2).possession = st.possession ∧
    ((resolve_penalty_kick o st atk dfn tk true).2).zone = st.zone := by
  rcases htk : (match tk with
    | none => (st.teamOf atk).best_penalty_taker
    | some t => some t) with _ | taker
  · simp [resolve_penalty_kick, htk]
  · rcases hgk : (st.teamOf dfn).get_goalkeeper with _ | gk
    · simp [resolve_penalty_kick, htk, hgk]
    · simp only [resolve_penalty_kick, htk, hgk, goal_probability, randUniform,
        randFloat, log_event_eq]
      split_ifs <;> simp

@[simp] lemma rpk_true_ssa (o : Oracle) (st : SimState) (atk dfn : Side)
    (tk : Option Player) :
    ((resolve_penalty_kick o st atk dfn tk true).2).shootout_score_a =
      st.shootout_score_a := (rpk_true_frame o st atk dfn tk).1

@[simp] lemma rpk_true_ssb (o : Oracle) (st : SimState) (atk dfn : Side)
    (tk : Option Player) :
    ((resolve_penalty_kick o st atk dfn tk true).2).shootout_score_b =
      st.shootout_score_b := (rpk_true_frame o st atk dfn tk).2.1

/-- Penalty-kicker roster entry used to exhibit shootout divergence: a taker
whose clamped scoring probability is exactly 1 against a hopeless keeper. -/
def c4d_kicker (n : ℕ) (pos : Position) : Player :=
  { id := n, name := "K", position := pos, skill := 50, free_kick_ability := 50,
    penalty_taking := 100000, penalty_saving := 0, shape := 100, morale := 80,
    personality := Personality.PROFESSIONAL }

/-- Eleven-player lineup of divergence kickers. -/
def c4d_lineup (base : ℕ) : Position → List Player := fun pos =>
  match pos with
  | Position.GOALKEEPER => [c4d_kicker base Position.GOALKEEPER]
  | Position.DEFENDER =>
    [c4d_kicker (base + 1) Position.DEFENDER, c4d_kicker (base + 2) Position.DEFENDER,
     c4d_kicker (base + 3) Position.DEFENDER, c4d_kicker (base + 4) Position.DEFENDER]
  | Position.MIDFIELDER =>
    [c4d_kicker (base + 5) Position.MIDFIELDER, c4d_kicker (base + 6) Position.MIDFIELDER,
     c4d_kicker (base + 7) Position.MIDFIELDER, c4d_kicker (base + 8) Position.MIDFIELDER]
  | Position.FORWARD =>
    [c4d_kicker (base + 9) Position.FORWARD, c4d_kicker (base + 10) Position.FORWARD]

/-- Team of divergence kickers. -/
def c4d_team (nm : String) (is_home : Bool) (base : ℕ) : MatchTeam :=
  { team := { name := nm, players := starting_11 (c4d_lineup base) }
    is_home := is_home
    fixed_lineup_ids := none
    lineup := c4d_lineup base
    base_zonal_strength := fun _ => 20
    zonal_strength := fun _ => 20
    avg_shape := 100
    avg_base_skill := 50
    avg_effective_skill := 50
    score := 0
    best_fk_taker := none
    best_penalty_taker := none }

/-- Invariant tying a state to the two divergence teams. -/
def c4d_teams (st : SimState) : Prop :=
  st.team_a = c4d_team "DDA" true 0 ∧ st.team_b = c4d_team "DDB" false 20

/-- Against a keeper with zero penalty-saving, a kicker with penalty-taking
100000 and shape 100 scores with probability exactly 1 (clamped), so the
all-zeros oracle makes every such shootout kick a goal. -/
lemma c4d_kick_scores (st : SimState) (atk dfn : Side) (tk : Player)
    (htk1 : tk.penalty_taking = 100000) (htk2 : tk.shape = 100)
    (g : Player) (hg : (st.teamOf dfn).get_goalkeeper = some g)
    (hgs : g.penalty_saving = 0) :
    (resolve_penalty_kick c2_oracle st atk dfn (some tk) true).1 = true := by
  have he1 : tk.effective_penalty_taking = 115000 := by
    rw [Player.effective_penalty_taking, htk1, htk2]
    rw [if_pos]
    · norm_num [TRAIT_BONUS]
    · simp [Player.has_penalty_trait, htk1, TRAIT_THRESHOLD]
      norm_num
  have he2 : g.effective_penalty_saving = 0 := by
    rw [Player.effective_penalty_saving, hgs]
    split_ifs <;> ring
  have hprob : (goal_probability c2_oracle st tk.effective_penalty_taking
      g.effective_penalty_saving PENALTY_SCALING PENALTY_CONVERSION_FACTOR).1 = 1 := by
    simp only [goal_probability, randUniform, c2_oracle, he1, he2,
      SHOOTER_NOISE_MIN, SHOOTER_NOISE_MAX, GK_NOISE_MIN, GK_NOISE_MAX,
      PENALTY_SCALING, PENALTY_CONVERSION_FACTOR]
    rw [if_neg (by norm_num), if_pos (by norm_num)]
    rw [one_mul, min_eq_left]
    · norm_num
  have hf : ∀ k : ℕ, c2_oracle.floats k = 0 := fun _ => rfl
  simp only [resolve_penalty_kick, hg, hprob, randFloat, hf, if_true]
  rw [if_pos]
  norm_num

end Football

namespace Football

lemma c4d_teams_log (st : SimState) (h : c4d_teams st) (m i : String)
    (e : Option String) : c4d_teams (log_event st m i e) :=
  ⟨by simp [h.1], by simp [h.2]⟩

lemma c4d_teams_rpk (o : Oracle) (st : SimState) (atk dfn : Side)
    (tk : Option Player) (h : c4d_teams st) :
    c4d_teams ((resolve_penalty_kick o st atk dfn tk true).2) :=
  ⟨by simp [h.1], by simp [h.2]⟩

lemma c4d_gkA (st : SimState) (h : c4d_teams st) :
    (st.teamOf Side.A).get_goalkeeper = some (c4d_kicker 0 Position.GOALKEEPER) := by
  show st.team_a.get_goalkeeper = _
  rw [h.1]
  rfl

lemma c4d_gkB (st : SimState) (h : c4d_teams st) :
    (st.teamOf Side.B).get_goalkeeper = some (c4d_kicker 20 Position.GOALKEEPER) := by
  show st.team_b.get_goalkeeper = _
  rw [h.2]
  rfl

/-- With full-strength kickers on both sides, every best-of-five round ends
with both sides scoring, so the phase completes still level. -/
lemma c4d_rounds (tkA tkB : List Player)
    (hlenA : tkA.length = 5) (hlenB : tkB.length = 5)
    (hmemA : ∀ p ∈ tkA, p.penalty_taking = 100000 ∧ p.shape = 100)
    (hmemB : ∀ p ∈ tkB, p.penalty_taking = 100000 ∧ p.shape = 100) :
    ∀ (n i : ℕ) (st : SimState), n + i = 5 → c4d_teams st →
      st.shootout_score_a = st.shootout_score_b →
      ∃ st', shootout_rounds c2_oracle tkA tkB n i st = some st' ∧
        c4d_teams st' ∧ st'.shootout_score_a = st'.shootout_score_b := by
  intro n
  induction n with
  | zero =>
    intro i st _ hteams htied
    exact ⟨st, by rw [shootout_rounds], hteams, htied⟩
  | succ n ih =>
    intro i st hni hteams htied
    have hi : i < 5 := by omega
    have hiA : i < tkA.length := by omega
    have hiB : i < tkB.length := by omega
    obtain ⟨kA, hkA⟩ := Option.isSome_iff_exists.mp
      (show (tkA.get? i).isSome by
        simp [List.get?_eq_getElem?, List.getElem?_eq_getElem hiA])
    obtain ⟨kB, hkB⟩ := Option.isSome_iff_exists.mp
      (show (tkB.get? i).isSome by
        simp [List.get?_eq_getElem?, List.getElem?_eq_getElem hiB])
    have hkAm := hmemA kA (List.get?_mem hkA)
    have hkBm := hmemB kB (List.get?_mem hkB)
    rw [shootout_rounds]
    simp only [hkA, hkB]
    set st1 := log_event st ("--- Shootout Round " ++ toString (i + 1) ++ " ---")
      "info" none with hst1
    have ht1 : c4d_teams st1 := c4d_teams_log st hteams _ _ _
    have hga : (resolve_penalty_kick c2_oracle st1 Side.A Side.B (some kA) true).1 =
        true :=
      c4d_kick_scores st1 Side.A Side.B kA hkAm.1 hkAm.2 _ (c4d_gkB st1 ht1) rfl
    set ra := resolve_penalty_kick c2_oracle st1 Side.A Side.B (some kA) true with hra
    simp only [hga, if_true]
    have ht3 : c4d_teams { ra.2 with
        shootout_score_a := ra.2.shootout_score_a + 1 } := by
      have h2 := c4d_teams_rpk c2_oracle st1 Side.A Side.B (some kA) ht1
      rw [← hra] at h2
      exact ⟨h2.1, h2.2⟩
    have hgb : (resolve_penalty_kick c2_oracle
        { ra.2 with shootout_score_a := ra.2.shootout_score_a + 1 }
        Side.B Side.A (some kB) true).1 = true :=
      c4d_kick_scores _ Side.B Side.A kB hkBm.1 hkBm.2 _ (c4d_gkA _ ht3) rfl
    set rb := resolve_penalty_kick c2_oracle
      { ra.2 with shootout_score_a := ra.2.shootout_score_a + 1 }
      Side.B Side.A (some kB) true with hrb
    simp only [hgb, if_true]
    split_ifs with hc1 hc2
    · exfalso
      simp only [hra, hst1] at hc1
      simp at hc1
      omega
    · exfalso
      simp only [hrb, hra, hst1] at hc2
      simp at hc2
      omega
    · refine ih (i + 1) _ (by omega) ⟨?_, ?_⟩ ?_
      · simp [hrb, hra, hst1, hteams.1]
      · simp [hrb, hra, hst1, hteams.2]
      · simp [hrb, hra, hst1, htied]

end Football

namespace Football

/-- With full-strength kickers on both sides, every sudden-death round ends
with both sides scoring, so the loop never exits: the fuelled model returns
`none` for every fuel, matching a non-terminating Python `while` loop. -/
lemma c4d_sudden (remA remB : List Player)
    (hneA : remA ≠ []) (hneB : remB ≠ [])
    (hmemA : ∀ p ∈ remA, p.penalty_taking = 100000 ∧ p.shape = 100)
    (hmemB : ∀ p ∈ remB, p.penalty_taking = 100000 ∧ p.shape = 100) :
    ∀ (fuel rn : ℕ) (st : SimState), c4d_teams st →
      st.shootout_score_a = st.shootout_score_b →
      sudden_death c2_oracle remA remB fuel rn st = none := by
  intro fuel
  induction fuel with
  | zero =>
    intro rn st _ _
    rw [sudden_death]
  | succ n ih =>
    intro rn st hteams htied
    have hiA : rn % remA.length < remA.length :=
      Nat.mod_lt rn (List.length_pos.mpr hneA)
    have hiB : rn % remB.length < remB.length :=
      Nat.mod_lt rn (List.length_pos.mpr hneB)
    obtain ⟨kA, hkA⟩ := Option.isSome_iff_exists.mp
      (show (remA.get? (rn % remA.length)).isSome by
        simp [List.get?_eq_getElem?, List.getElem?_eq_getElem hiA])
    obtain ⟨kB, hkB⟩ := Option.isSome_iff_exists.mp
      (show (remB.get? (rn % remB.length)).isSome by
        simp [List.get?_eq_getElem?, List.getElem?_eq_getElem hiB])
    have hkAm := hmemA kA (List.get?_mem hkA)
    have hkBm := hmemB kB (List.get?_mem hkB)
    rw [sudden_death, if_pos htied]
    simp only [hkA, hkB]
    set st1 := log_event st ("--- Sudden Death Round " ++ toString (rn + 1) ++ " ---")
      "info" none with hst1
    have ht1 : c4d_teams st1 := c4d_teams_log st hteams _ _ _
    have hga : (resolve_penalty_kick c2_oracle st1 Side.A Side.B (some kA) true).1 =
        true :=
      c4d_kick_scores st1 Side.A Side.B kA hkAm.1 hkAm.2 _ (c4d_gkB st1 ht1) rfl
    set ra := resolve_penalty_kick c2_oracle st1 Side.A Side.B (some kA) true with hra
    have ht2 : c4d_teams ra.2 := by
      have h2 := c4d_teams_rpk c2_oracle st1 Side.A Side.B (some kA) ht1
      rw [← hra] at h2
      exact h2
    have hgb : (resolve_penalty_kick c2_oracle ra.2 Side.B Side.A (some kB) true).1 =
        true :=
      c4d_kick_scores ra.2 Side.B Side.A kB hkBm.1 hkBm.2 _ (c4d_gkA ra.2 ht2) rfl
    set rb := resolve_penalty_kick c2_oracle ra.2 Side.B Side.A (some kB) true with hrb
    simp only [hga, hgb, if_true]
    refine ih (rn + 1) _ ⟨?_, ?_⟩ ?_
    · simp [hrb, hra, hst1, hteams.1]
    · simp [hrb, hra, hst1, hteams.2]
    · simp [hrb, hra, hst1, htied]

end Football

namespace Football

/-- Shootout divergence at the top level: with the two divergence teams and
a level score, `resolve_shootout` returns `none` for every fuel. -/
lemma c4d_resolve_shootout_none (st : SimState) (hteams : c4d_teams st)
    (htied : st.shootout_score_a = st.shootout_score_b) (fuel : ℕ) :
    resolve_shootout c2_oracle fuel st = none := by
  have ht1 : c4d_teams (log_event st
      "The match is drawn. A penalty shootout will decide the winner!" "final"
      (some "SHOOTOUT_START")) := c4d_teams_log st hteams _ _ _
  rw [resolve_shootout]
  simp only [ht1.1, ht1.2]
  set pA := (c4d_team "DDA" true 0).get_starting_11.filter
    (fun p => !(p.position == Position.GOALKEEPER)) with hpA
  set pB := (c4d_team "DDB" false 20).get_starting_11.filter
    (fun p => !(p.position == Position.GOALKEEPER)) with hpB
  have hpAmem : ∀ p ∈ pA, p.penalty_taking = 100000 ∧ p.shape = 100 := by
    rw [hpA]; decide
  have hpBmem : ∀ p ∈ pB, p.penalty_taking = 100000 ∧ p.shape = 100 := by
    rw [hpB]; decide
  have hpAlen : pA.length = 10 := by rw [hpA]; decide
  have hpBlen : pB.length = 10 := by rw [hpB]; decide
  set tkA := (pysort_desc_pen pA).take 5 with htkA
  set tkB := (pysort_desc_pen pB).take 5 with htkB
  have htkAmem : ∀ p ∈ tkA, p.penalty_taking = 100000 ∧ p.shape = 100 := by
    intro p hp
    rw [htkA, pysort_desc_pen] at hp
    exact hpAmem p (List.mem_mergeSort.mp (List.mem_of_mem_take hp))
  have htkBmem : ∀ p ∈ tkB, p.penalty_taking = 100000 ∧ p.shape = 100 := by
    intro p hp
    rw [htkB, pysort_desc_pen] at hp
    exact hpBmem p (List.mem_mergeSort.mp (List.mem_of_mem_take hp))
  have htkAlen : tkA.length = 5 := by
    rw [htkA, pysort_desc_pen, List.length_take, List.length_mergeSort, hpAlen]
    decide
  have htkBlen : tkB.length = 5 := by
    rw [htkB, pysort_desc_pen, List.length_take, List.length_mergeSort, hpBlen]
    decide
  obtain ⟨st2, hrounds, ht2, htied2⟩ :=
    c4d_rounds tkA tkB htkAlen htkBlen htkAmem htkBmem 5 0 _ rfl ht1 (by simp [htied])
  rw [hrounds]
  simp only [Option.some_bind]
  rw [shootout_tail, if_pos htied2]
  have hremAmem : ∀ p ∈ shootout_rem pA tkA,
      p.penalty_taking = 100000 ∧ p.shape = 100 := by
    intro p hp
    rw [shootout_rem] at hp
    split_ifs at hp with hemp
    · exact htkAmem p hp
    · exact hpAmem p (List.mem_filter.mp hp).1
  have hremBmem : ∀ p ∈ shootout_rem pB tkB,
      p.penalty_taking = 100000 ∧ p.shape = 100 := by
    intro p hp
    rw [shootout_rem] at hp
    split_ifs at hp with hemp
    · exact htkBmem p hp
    · exact hpBmem p (List.mem_filter.mp hp).1
  have hremAne : shootout_rem pA tkA ≠ [] := by
    rw [shootout_rem]
    split_ifs with hemp
    · intro hcon
      rw [hcon] at htkAlen
      exact absurd htkAlen (by decide)
    · intro hcon
      rw [hcon] at hemp
      exact hemp rfl
  have hremBne : shootout_rem pB tkB ≠ [] := by
    rw [shootout_rem]
    split_ifs with hemp
    · intro hcon
      rw [hcon] at htkBlen
      exact absurd htkBlen (by decide)
    · intro hcon
      rw [hcon] at hemp
      exact hemp rfl
  rw [c4d_sudden (shootout_rem pA tkA) (shootout_rem pB tkB) hremAne hremBne
    hremAmem hremBmem fuel 0 _ (c4d_teams_log st2 ht2 _ _ _) (by simp [htied2])]
  rfl

/-- Knockout state, level at minute 90, fielding the two divergence teams. -/
def c4d_state : SimState :=
  { team_a := c4d_team "DDA" true 0
    team_b := c4d_team "DDB" false 20
    logging_enabled := false
    is_knockout := true
    log := []
    minute := 90
    zone := Zone.M
    possession := some Side.A
    free_kick_events := []
    shootout_score_a := 0
    shootout_score_b := 0
    winner_on_penalties := none
    rngF := 0
    rngN := 0 }

/-- The fuelled model of `simulate` yields no result at any fuel: the Python
call never returns. -/
def simulate_diverges (o : Oracle) (st : SimState) : Prop :=
  ∀ fuel, simulate o fuel st = none

/-- C4 counterexample: a knockout match that is level after 90 minutes, with
both sides fielding eleven, on which the all-zeros draw sequence makes every
shootout kick score, so the sudden-death loop never produces a winner --
refuting "returns a non-null winner_on_penalties ... for every sequence of
random draws". -/
theorem claim_C4_counterexample :
    c4d_state.is_knockout = true ∧
    c4d_state.team_a.score = c4d_state.team_b.score ∧
    ¬(c4d_state.team_a.get_starting_11.length < 11 ∨
      c4d_state.team_b.get_starting_11.length < 11) ∧
    simulate_diverges c2_oracle c4d_state := by
  refine ⟨rfl, rfl, by decide, ?_⟩
  intro fuel
  rw [simulate, if_neg (by decide)]
  simp only []
  have har : after_regulation c2_oracle c4d_state = c4d_state := rfl
  rw [har, if_pos ⟨rfl, rfl⟩]
  rw [c4d_resolve_shootout_none c4d_state ⟨rfl, rfl⟩ rfl fuel]
  rfl

/-- C4 witness: the wiring half of the amended theorem applied to the
concrete level knockout state. -/
theorem claim_C4_witness :
    (¬(c4d_state.team_a.get_starting_11.length < 11 ∨
        c4d_state.team_b.get_starting_11.length < 11) ∧
      (after_regulation c2_oracle c4d_state).is_knockout = true ∧
      (after_regulation c2_oracle c4d_state).team_a.score =
        (after_regulation c2_oracle c4d_state).team_b.score) ∧
    simulate c2_oracle 7 c4d_state =
      (resolve_shootout c2_oracle 7 (after_regulation c2_oracle c4d_state)).map
        get_results :=
  ⟨⟨by decide, rfl, rfl⟩,
    claim_C4.2 c2_oracle 7 c4d_state (by decide) rfl rfl⟩

end Football

namespace Football

/-- Match outcome tags `'WIN' | 'LOSS' | 'DRAW'` used by the morale updater
in `match_simulator - Copy.py`. -/
inductive MatchOutcome where
  | WIN
  | LOSS
  | DRAW
deriving DecidableEq, Repr

/-- Overridable morale constants of `match_simulator - Copy.py`
(`_get_morale_params`). -/
structure MoraleParams where
  MORALE_BASE_WIN : ℚ
  MORALE_BASE_LOSS : ℚ
  MORALE_BASE_DRAW : ℚ
  MORALE_MARGIN_THRESHOLD : ℚ
  MORALE_MARGIN_MULTIPLIER : ℚ
  MORALE_GOAL_BONUS : ℚ
  MORALE_HAT_TRICK_BONUS : ℚ
  MORALE_DRIFT_TARGET : ℚ
  MORALE_DRIFT_RATE : ℚ
deriving DecidableEq, Repr

/-- Module-level defaults of the morale constants. -/
def default_morale_params : MoraleParams :=
  { MORALE_BASE_WIN := 8
    MORALE_BASE_LOSS := -10
    MORALE_BASE_DRAW := 1
    MORALE_MARGIN_THRESHOLD := 3
    MORALE_MARGIN_MULTIPLIER := 1.5
    MORALE_GOAL_BONUS := 3
    MORALE_HAT_TRICK_BONUS := 10
    MORALE_DRIFT_TARGET := 75
    MORALE_DRIFT_RATE := 0.05 }

/-- Python `int(round(x))`: round half to even, then truncate (already an
integer). -/
def pyRound (x : ℚ) : ℤ :=
  let f := ⌊x⌋
  let frac := x - f
  if frac < 1/2 then f
  else if 1/2 < frac then f + 1
  else if f % 2 = 0 then f else f + 1

/-- Method `MatchSimulator._process_team_morale` of
`match_simulator - Copy.py`, as a function of the attributes it reads:
the roster (`match_team.team.players`), the starting-eleven id set, the
per-player goal tally (`match_team.player_stats`), and the starting-eleven
average morale (`match_team.avg_morale`). -/
def process_team_morale (params : MoraleParams) (players : List Player)
    (starting_11_ids : List ℕ) (goalsOf : ℕ → ℕ) (avg_morale : ℚ)
    (result : MatchOutcome) (margin : ℤ) : List Player :=
  let base_change : ℚ := match result with
    | MatchOutcome.WIN => params.MORALE_BASE_WIN
    | MatchOutcome.LOSS => params.MORALE_BASE_LOSS
    | MatchOutcome.DRAW => params.MORALE_BASE_DRAW
  let is_positive : Bool := match result with
    | MatchOutcome.WIN => true
    | MatchOutcome.LOSS => false
    | MatchOutcome.DRAW => avg_morale < params.MORALE_DRIFT_TARGET
  let is_significant : Bool := match result with
    | MatchOutcome.WIN => (margin : ℚ) ≥ params.MORALE_MARGIN_THRESHOLD
    | MatchOutcome.LOSS => ((|margin| : ℤ) : ℚ) ≥ params.MORALE_MARGIN_THRESHOLD
    | MatchOutcome.DRAW => false
  let margin_multiplier : ℚ :=
    if is_significant then params.MORALE_MARGIN_MULTIPLIER else 1
  players.map (fun player =>
    let starter := starting_11_ids.contains player.id
    let outcome_change : ℚ := if starter then
        base_change * margin_multiplier * player.get_personality_multiplier is_positive
      else 0
    let goals_scored := goalsOf player.id
    let performance_change : ℚ :=
      if goals_scored ≥ 3 then params.MORALE_HAT_TRICK_BONUS
      else if goals_scored > 0 then (goals_scored : ℚ) * params.MORALE_GOAL_BONUS
      else 0
    let drift_change : ℚ := if !starter then
        (params.MORALE_DRIFT_TARGET - (player.morale : ℚ)) * params.MORALE_DRIFT_RATE
      else 0
    let total_change := pyRound (outcome_change + performance_change + drift_change)
    { player with morale := max 0 (min 100 (player.morale + total_change)) })

/-- Method `MatchSimulator.apply_post_match_morale_updates` of
`match_simulator - Copy.py` (in-memory part; the caller-controlled database
commit is I/O and out of scope): classify the result for each side and
update both rosters. -/
def apply_post_match_morale_updates (params : MoraleParams)
    (score_a score_b : ℕ) (winner_on_penalties : Option String)
    (team_a_name : String) (playersA playersB : List Player)
    (sidsA sidsB : List ℕ) (goalsA goalsB : ℕ → ℕ) (avgA avgB : ℚ) :
    List Player × List Player :=
  let cls : MatchOutcome × MatchOutcome × ℤ × ℤ :=
    match winner_on_penalties with
    | some w =>
      if w = team_a_name then (MatchOutcome.WIN, MatchOutcome.LOSS, 0, 0)
      else (MatchOutcome.LOSS, MatchOutcome.WIN, 0, 0)
    | none =>
      if score_a > score_b then
        (MatchOutcome.WIN, MatchOutcome.LOSS, (score_a : ℤ) - score_b,
          (score_b : ℤ) - score_a)
      else if score_b > score_a then
        (MatchOutcome.LOSS, MatchOutcome.WIN, (score_a : ℤ) - score_b,
          (score_b : ℤ) - score_a)
      else (MatchOutcome.DRAW, MatchOutcome.DRAW, 0, 0)
  (process_team_morale params playersA sidsA goalsA avgA cls.1 cls.2.2.1,
   process_team_morale params playersB sidsB goalsB avgB cls.2.1 cls.2.2.2)

/-- Every player processed by the morale updater ends with morale clamped
into [0, 100]. -/
lemma process_team_morale_bounds (params : MoraleParams) (players : List Player)
    (sids : List ℕ) (goalsOf : ℕ → ℕ) (avg : ℚ) (result : MatchOutcome)
    (margin : ℤ) (p : Player)
    (hp : p ∈ process_team_morale params players sids goalsOf avg result margin) :
    0 ≤ p.morale ∧ p.morale ≤ 100 := by
  simp only [process_team_morale, List.mem_map] at hp
  obtain ⟨q, -, hq⟩ := hp
  rw [← hq]
  constructor
  · exact le_max_left 0 _
  · exact max_le (by norm_num) (min_le_left 100 _)

/-- C9: after the post-match morale update, every player of both rosters
(starters and non-starters alike) has an integer morale in [0, 100], for
every result, margin, personality, goal tally, morale parameter set and
prior morale. -/
theorem claim_C9 (params : MoraleParams) (score_a score_b : ℕ)
    (winner : Option String) (nameA : String) (playersA playersB : List Player)
    (sidsA sidsB : List ℕ) (goalsA goalsB : ℕ → ℕ) (avgA avgB : ℚ) :
    (∀ p ∈ (apply_post_match_morale_updates params score_a score_b winner nameA
        playersA playersB sidsA sidsB goalsA goalsB avgA avgB).1,
      0 ≤ p.morale ∧ p.morale ≤ 100) ∧
    (∀ p ∈ (apply_post_match_morale_updates params score_a score_b winner nameA
        playersA playersB sidsA sidsB goalsA goalsB avgA avgB).2,
      0 ≤ p.morale ∧ p.morale ≤ 100) := by
  constructor
  · intro p hp
    exact process_team_morale_bounds _ _ _ _ _ _ _ p hp
  · intro p hp
    exact process_team_morale_bounds _ _ _ _ _ _ _ p hp

/-- C9 witness: the theorem applied to a concrete one-player roster with an
extreme prior morale and huge winning margin. -/
theorem claim_C9_witness :
    ({ wGK with morale := 0 } ∈
      (apply_post_match_morale_updates default_morale_params 9 0 none "H"
        [{ wGK with morale := -50 }] [] [1] [] (fun _ => 0) (fun _ => 0) 80 80).1) ∧
    (0 ≤ ({ wGK with morale := 0 } : Player).morale ∧
      ({ wGK with morale := 0 } : Player).morale ≤ 100) := by
  have hmem : { wGK with morale := 0 } ∈
      (apply_post_match_morale_updates default_morale_params 9 0 none "H"
        [{ wGK with morale := -50 }] [] [1] [] (fun _ => 0) (fun _ => 0) 80 80).1 := by
    have hres : (apply_post_match_morale_updates default_morale_params 9 0 none "H"
        [{ wGK with morale := -50 }] [] [1] [] (fun _ => 0) (fun _ => 0) 80 80).1 =
        [{ wGK with morale := 0 }] := by
      norm_num [apply_post_match_morale_updates, process_team_morale,
        default_morale_params, pyRound, Player.get_personality_multiplier, wGK]
    rw [hres]
    exact List.mem_singleton_self _
  exact ⟨hmem, (claim_C9 default_morale_params 9 0 none "H" [{ wGK with morale := -50 }]
    [] [1] [] (fun _ => 0) (fun _ => 0) 80 80).1 _ hmem⟩

end Football

namespace Football

/-- Final score of one headless simulation inside `_run_fixture_sims`
(`logging_enabled=False`, `is_knockout=False`).  The `none` arm is
unreachable: with `is_knockout=False` no shootout runs, so `simulate`
always yields a result. -/
noncomputable def simScores (o : Oracle) (home away : TeamModel)
    (fixed_home_ids fixed_away_ids : Option (List ℕ)) : ℕ × ℕ :=
  match simulate o 0
    (mk_simulator o home away false fixed_home_ids fixed_away_ids false) with
  | some r => (r.score_a, r.score_b)
  | none => (0, 0)

/-- Probability dict returned by `_run_fixture_sims`. -/
structure FixtureProbs where
  win_prob : ℚ
  draw_prob : ℚ
  loss_prob : ℚ
  avg_goals_for : ℚ
  avg_goals_against : ℚ
deriving DecidableEq, Repr

/-- Inner helper `_run_fixture_sims` of `get_prematch_odds`: run the given
number of independent headless simulations (one oracle per run) and
aggregate win/draw/loss frequencies and average goals. -/
noncomputable def run_fixture_sims (os : ℕ → Oracle) (simulations : ℕ)
    (home away : TeamModel) (fixed_home_ids fixed_away_ids : Option (List ℕ)) :
    FixtureProbs :=
  let results := (List.range simulations).map
    (fun k => simScores (os k) home away fixed_home_ids fixed_away_ids)
  let wins := results.countP (fun r => decide (r.2 < r.1))
  let draws := results.countP (fun r => decide (r.1 = r.2))
  let losses := results.countP (fun r => decide (r.1 < r.2))
  let goals_for := (results.map (fun r => r.1)).sum
  let goals_against := (results.map (fun r => r.2)).sum
  { win_prob := ((wins : ℚ) / simulations) * 100
    draw_prob := ((draws : ℚ) / simulations) * 100
    loss_prob := ((losses : ℚ) / simulations) * 100
    avg_goals_for := (goals_for : ℚ) / simulations
    avg_goals_against := (goals_against : ℚ) / simulations }

/-- Each simulated match lands in exactly one of the win/draw/loss buckets. -/
lemma counts_partition (l : List (ℕ × ℕ)) :
    l.countP (fun r => decide (r.2 < r.1)) + l.countP (fun r => decide (r.1 = r.2)) +
      l.countP (fun r => decide (r.1 < r.2)) = l.length := by
  induction l with
  | nil => rfl
  | cons a l ih =>
    simp only [List.countP_cons, List.length_cons]
    rcases Nat.lt_trichotomy a.1 a.2 with h | h | h
    · rw [if_neg (by simpa using Nat.lt_asymm h), if_neg (by simpa using Nat.ne_of_lt h),
        if_pos (by simpa using h)]
      omega
    · rw [if_neg (by simp [h]), if_pos (by simpa using h), if_neg (by simp [h])]
      omega
    · rw [if_pos (by simpa using h), if_neg (by simpa using (Nat.ne_of_lt h).symm),
        if_neg (by simpa using Nat.lt_asymm h)]
      omega

/-- C10: with a positive simulation count, the three reported probabilities
each lie in [0, 100] and sum to exactly 100 in exact rational arithmetic. -/
theorem claim_C10 (os : ℕ → Oracle) (N : ℕ) (home away : TeamModel)
    (fh fa : Option (List ℕ)) (hN : 0 < N) :
    (0 ≤ (run_fixture_sims os N home away fh fa).win_prob ∧
      (run_fixture_sims os N home away fh fa).win_prob ≤ 100) ∧
    (0 ≤ (run_fixture_sims os N home away fh fa).draw_prob ∧
      (run_fixture_sims os N home away fh fa).draw_prob ≤ 100) ∧
    (0 ≤ (run_fixture_sims os N home away fh fa).loss_prob ∧
      (run_fixture_sims os N home away fh fa).loss_prob ≤ 100) ∧
    (run_fixture_sims os N home away fh fa).win_prob +
      (run_fixture_sims os N home away fh fa).draw_prob +
      (run_fixture_sims os N home away fh fa).loss_prob = 100 := by
  have hN0 : (N : ℚ) ≠ 0 := Nat.cast_ne_zero.mpr hN.ne'
  have hNpos : (0 : ℚ) < N := by exact_mod_cast hN
  set results := (List.range N).map
    (fun k => simScores (os k) home away fh fa) with hres
  have hlen : results.length = N := by
    rw [hres, List.length_map, List.length_range]
  have hpart := counts_partition results
  rw [hlen] at hpart
  have hw : results.countP (fun r => decide (r.2 < r.1)) ≤ N := by
    rw [← hlen]; exact List.countP_le_length _
  have hd : results.countP (fun r => decide (r.1 = r.2)) ≤ N := by
    rw [← hlen]; exact List.countP_le_length _
  have hl : results.countP (fun r => decide (r.1 < r.2)) ≤ N := by
    rw [← hlen]; exact List.countP_le_length _
  have key : ∀ c : ℕ, c ≤ N → 0 ≤ ((c : ℚ) / N) * 100 ∧ ((c : ℚ) / N) * 100 ≤ 100 := by
    intro c hc
    constructor
    · positivity
    · have h1 : (c : ℚ) ≤ N := by exact_mod_cast hc
      rw [div_mul_eq_mul_div, div_le_iff₀ hNpos]
      nlinarith
  refine ⟨key _ hw, key _ hd, key _ hl, ?_⟩
  show ((results.countP (fun r => decide (r.2 < r.1)) : ℚ) / N) * 100 +
    ((results.countP (fun r => decide (r.1 = r.2)) : ℚ) / N) * 100 +
    ((results.countP (fun r => decide (r.1 < r.2)) : ℚ) / N) * 100 = 100
  have hsum : (results.countP (fun r => decide (r.2 < r.1)) : ℚ) +
      (results.countP (fun r => decide (r.1 = r.2)) : ℚ) +
      (results.countP (fun r => decide (r.1 < r.2)) : ℚ) = (N : ℚ) := by
    exact_mod_cast hpart
  field_simp
  linarith

/-- C10 witness: the theorem instantiated at one simulation between the
small concrete rosters. -/
theorem claim_C10_witness :
    0 < 1 ∧
    ((0 ≤ (run_fixture_sims (fun _ => c2_oracle) 1 c2_team c2_team none none).win_prob ∧
      (run_fixture_sims (fun _ => c2_oracle) 1 c2_team c2_team none none).win_prob ≤ 100) ∧
    (0 ≤ (run_fixture_sims (fun _ => c2_oracle) 1 c2_team c2_team none none).draw_prob ∧
      (run_fixture_sims (fun _ => c2_oracle) 1 c2_team c2_team none none).draw_prob ≤ 100) ∧
    (0 ≤ (run_fixture_sims (fun _ => c2_oracle) 1 c2_team c2_team none none).loss_prob ∧
      (run_fixture_sims (fun _ => c2_oracle) 1 c2_team c2_team none none).loss_prob ≤ 100) ∧
    (run_fixture_sims (fun _ => c2_oracle) 1 c2_team c2_team none none).win_prob +
      (run_fixture_sims (fun _ => c2_oracle) 1 c2_team c2_team none none).draw_prob +
      (run_fixture_sims (fun _ => c2_oracle) 1 c2_team c2_team none none).loss_prob = 100) :=
  ⟨by decide, claim_C10 (fun _ => c2_oracle) 1 c2_team c2_team none none (by decide)⟩

end Football

namespace Football

/-- Number of halftime markers in a log. -/
def countHT (l : List LogEntry) : ℕ :=
  l.countP (fun e => e.message == "Halftime")

@[simp] lemma countHT_append (l1 l2 : List LogEntry) :
    countHT (l1 ++ l2) = countHT l1 + countHT l2 := List.countP_append _ _ _

@[simp] lemma countHT_nil : countHT [] = 0 := rfl

lemma ne_ht_of_9_le (s : String) (h : 9 ≤ s.length) : ¬ s = "Halftime" := by
  intro hc
  rw [hc] at h
  exact absurd h (by decide)

lemma len9_right (a b : String) (h : 9 ≤ b.length) : 9 ≤ (a ++ b).length := by
  rw [String.length_append]
  omega

@[simp] lemma log_event_minute (st : SimState) (m i : String) (e : Option String) :
    (log_event st m i e).minute = st.minute := by rw [log_event_eq]

@[simp] lemma log_event_evs (st : SimState) (m i : String) (e : Option String) :
    (log_event st m i e).free_kick_events = st.free_kick_events := by
  rw [log_event_eq]

@[simp] lemma log_event_logging (st : SimState) (m i : String) (e : Option String) :
    (log_event st m i e).logging_enabled = st.logging_enabled := by
  rw [log_event_eq]

@[simp] lemma log_event_knockout (st : SimState) (m i : String) (e : Option String) :
    (log_event st m i e).is_knockout = st.is_knockout := by
  rw [log_event_eq]

@[simp] lemma log_event_possession (st : SimState) (m i : String) (e : Option String) :
    (log_event st m i e).possession = st.possession := by
  rw [log_event_eq]

/-- Appending a non-halftime entry leaves the halftime count unchanged. -/
lemma countHT_log_event (st : SimState) (m i : String) (e : Option String)
    (h : ¬ m = "Halftime") :
    countHT (log_event st m i e).log = countHT st.log := by
  rw [log_event_eq]
  simp only []
  rw [countHT_append]
  have hz : countHT (if st.logging_enabled = true
      then [LogEntry.mk st.minute m i e] else []) = 0 := by
    split_ifs
    · simp [countHT, List.countP_cons, h]
    · rfl
  omega

/-- Frame preserved by every in-play event resolver: clock, free-kick queue,
logging flag, knockout flag, and the halftime count. -/
def play_frame (st st' : SimState) : Prop :=
  st'.minute = st.minute ∧ st'.free_kick_events = st.free_kick_events ∧
  st'.logging_enabled = st.logging_enabled ∧ st'.is_knockout = st.is_knockout ∧
  countHT st'.log = countHT st.log

lemma play_frame_refl (st : SimState) : play_frame st st :=
  ⟨rfl, rfl, rfl, rfl, rfl⟩

lemma play_frame_trans {s1 s2 s3 : SimState} (h12 : play_frame s1 s2)
    (h23 : play_frame s2 s3) : play_frame s1 s3 :=
  ⟨h23.1.trans h12.1, h23.2.1.trans h12.2.1, h23.2.2.1.trans h12.2.2.1,
   h23.2.2.2.1.trans h12.2.2.2.1, h23.2.2.2.2.trans h12.2.2.2.2⟩

lemma play_frame_log_event (st : SimState) (m i : String) (e : Option String)
    (h : ¬ m = "Halftime") : play_frame st (log_event st m i e) :=
  ⟨by simp, by simp, by simp, by simp, countHT_log_event st m i e h⟩

@[simp] lemma randFloat_snd (o : Oracle) (st : SimState) :
    (randFloat o st).2 = { st with rngF := st.rngF + 1 } := rfl

@[simp] lemma randUniform_snd (o : Oracle) (st : SimState) (a b : ℚ) :
    (randUniform o st a b).2 = { st with rngF := st.rngF + 1 } := rfl

@[simp] lemma randNat_snd (o : Oracle) (st : SimState) (a b : ℕ) :
    (randNat o st a b).2 = { st with rngN := st.rngN + 1 } := rfl

@[simp] lemma randSide_snd (o : Oracle) (st : SimState) :
    (randSide o st).2 = { st with rngN := st.rngN + 1 } := rfl

@[simp] lemma goal_probability_snd (o : Oracle) (st : SimState) (a b c d : ℚ) :
    (goal_probability o st a b c d).2 = { st with rngF := st.rngF + 1 + 1 } := rfl

lemma grp_snd_cases (t : MatchTeam) (o : Oracle) (st : SimState)
    (pos : List Position) :
    (get_random_player t o st pos).2 = st ∨
    (get_random_player t o st pos).2 = { st with rngN := st.rngN + 1 } := by
  simp only [get_random_player]
  split_ifs
  · exact Or.inl rfl
  · exact Or.inr rfl

lemma play_frame_addScore (st : SimState) (s : Side) :
    play_frame st (addScore st s) := by
  cases s <;> exact ⟨rfl, rfl, rfl, rfl, rfl⟩

end Football

namespace Football

lemma len9_left (a b : String) (h : 9 ≤ a.length) : 9 ≤ (a ++ b).length := by
  rw [String.length_append]
  omega

lemma nh_advances (a : String) : ¬ (a ++ " advances.") = "Halftime" :=
  ne_ht_of_9_le _ (len9_right _ _ (by decide))

lemma nh_wins (a : String) : ¬ (a ++ " wins the ball.") = "Halftime" :=
  ne_ht_of_9_le _ (len9_right _ _ (by decide))

lemma nh_goal_score (nm x y : String) :
    ¬ ("GOAL! " ++ nm ++ "! (" ++ x ++ "-" ++ y ++ ")") = "Halftime" := by
  apply ne_ht_of_9_le
  simp only [String.length_append]
  have h1 : ("GOAL! ").length = 6 := rfl
  have h2 : ("! (").length = 3 := rfl
  omega

lemma nh_noshot (nm : String) :
    ¬ ("NO GOAL! Shot by " ++ nm ++ ".") = "Halftime" := by
  apply ne_ht_of_9_le
  simp only [String.length_append]
  have h1 : ("NO GOAL! Shot by ").length = 17 := rfl
  omega

lemma nh_pk_scores (nm : String) :
    ¬ ("GOAL! " ++ nm ++ " scores.") = "Halftime" := by
  apply ne_ht_of_9_le
  simp only [String.length_append]
  have h1 : ("GOAL! ").length = 6 := rfl
  have h2 : (" scores.").length = 8 := rfl
  omega

lemma nh_saved (gk nm : String) :
    ¬ ("SAVED! " ++ gk ++ " denies " ++ nm ++ "!") = "Halftime" := by
  apply ne_ht_of_9_le
  simp only [String.length_append]
  have h1 : ("SAVED! ").length = 7 := rfl
  have h2 : (" denies ").length = 8 := rfl
  omega

lemma nh_converts (nm x y : String) :
    ¬ ("GOAL! " ++ nm ++ " converts! (" ++ x ++ "-" ++ y ++ ")") = "Halftime" := by
  apply ne_ht_of_9_le
  simp only [String.length_append]
  have h1 : ("GOAL! ").length = 6 := rfl
  have h2 : (" converts! (").length = 12 := rfl
  omega

lemma nh_missedpen (nm : String) :
    ¬ ("MISSED! " ++ nm ++ "'s penalty is saved or wide!") = "Halftime" :=
  ne_ht_of_9_le _ (len9_right _ _ (by decide))

lemma nh_chance (nm : String) :
    ¬ (nm ++ " creates a chance!") = "Halftime" :=
  ne_ht_of_9_le _ (len9_right _ _ (by decide))

lemma nh_pento (nm : String) :
    ¬ ("PENALTY to " ++ nm ++ "!") = "Halftime" := by
  apply ne_ht_of_9_le
  simp only [String.length_append]
  have h1 : ("PENALTY to ").length = 11 := rfl
  omega

lemma nh_holds (nm : String) :
    ¬ (nm ++ "'s defense holds firm.") = "Halftime" :=
  ne_ht_of_9_le _ (len9_right _ _ (by decide))

lemma nh_stepsup (nm : String) :
    ¬ (nm ++ " steps up to take the direct free kick.") = "Halftime" :=
  ne_ht_of_9_le _ (len9_right _ _ (by decide))

lemma nh_nofk : ¬ ("NO GOAL! The free kick is saved or missed.") = "Halftime" := by
  decide

lemma nh_fkto (nm z : String) :
    ¬ ("Free Kick to " ++ nm ++ " in a " ++ z ++ " position.") = "Halftime" := by
  apply ne_ht_of_9_le
  simp only [String.length_append]
  have h1 : ("Free Kick to ").length = 13 := rfl
  omega

lemma nh_cross (nm : String) :
    ¬ (nm ++ " sends a cross or pass into the attacking zone.") = "Halftime" :=
  ne_ht_of_9_le _ (len9_right _ _ (by decide))

lemma nh_restarts (nm : String) :
    ¬ (nm ++ " restarts play safely.") = "Halftime" :=
  ne_ht_of_9_le _ (len9_right _ _ (by decide))

lemma nh_round (x : String) :
    ¬ ("--- Shootout Round " ++ x ++ " ---") = "Halftime" := by
  apply ne_ht_of_9_le
  simp only [String.length_append]
  have h1 : ("--- Shootout Round ").length = 19 := rfl
  omega

lemma nh_scoreline (a x y b : String) :
    ¬ ("Score: " ++ a ++ " " ++ x ++ " - " ++ y ++ " " ++ b) = "Halftime" := by
  apply ne_ht_of_9_le
  simp only [String.length_append]
  have h1 : ("Score: ").length = 7 := rfl
  have h2 : (" - ").length = 3 := rfl
  omega

lemma nh_sd_round (x : String) :
    ¬ ("--- Sudden Death Round " ++ x ++ " ---") = "Halftime" := by
  apply ne_ht_of_9_le
  simp only [String.length_append]
  have h1 : ("--- Sudden Death Round ").length = 23 := rfl
  omega

lemma nh_sd : ¬ ("--- Sudden Death ---") = "Halftime" := by decide

lemma nh_shootout_win (w x y : String) :
    ¬ (w ++ " wins the shootout " ++ x ++ "-" ++ y ++ "!") = "Halftime" := by
  apply ne_ht_of_9_le
  simp only [String.length_append]
  have h1 : (" wins the shootout ").length = 19 := rfl
  omega

lemma nh_drawn :
    ¬ ("The match is drawn. A penalty shootout will decide the winner!") =
      "Halftime" := by
  decide

lemma nh_kickoff (x : String) :
    ¬ ("Kickoff! (Total FKs scheduled: " ++ x ++ ")") = "Halftime" := by
  apply ne_ht_of_9_le
  simp only [String.length_append]
  have h1 : ("Kickoff! (Total FKs scheduled: ").length = 31 := rfl
  omega

lemma nh_fulltime (x y : String) :
    ¬ ("Full Time! Final score: " ++ x ++ " - " ++ y) = "Halftime" := by
  apply ne_ht_of_9_le
  simp only [String.length_append]
  have h1 : ("Full Time! Final score: ").length = 24 := rfl
  omega

end Football

namespace Football

@[simp] lemma addScore_minute (st : SimState) (s : Side) :
    (addScore st s).minute = st.minute := by cases s <;> rfl

@[simp] lemma addScore_evs (st : SimState) (s : Side) :
    (addScore st s).free_kick_events = st.free_kick_events := by cases s <;> rfl

@[simp] lemma addScore_logging (st : SimState) (s : Side) :
    (addScore st s).logging_enabled = st.logging_enabled := by cases s <;> rfl

@[simp] lemma addScore_knockout (st : SimState) (s : Side) :
    (addScore st s).is_knockout = st.is_knockout := by cases s <;> rfl

@[simp] lemma addScore_log (st : SimState) (s : Side) :
    (addScore st s).log = st.log := by cases s <;> rfl

@[simp] lemma addScore_possession (st : SimState) (s : Side) :
    (addScore st s).possession = st.possession := by cases s <;> rfl

/-- A shot resolution preserves the clock, the free-kick queue, the logging
and knockout flags, and never logs a halftime marker. -/
lemma play_frame_resolve_shot (o : Oracle) (st : SimState) (atk dfn : Side) :
    play_frame st (resolve_shot o st atk dfn) := by
  rcases hsh : (get_random_player (st.teamOf atk) o st
      [Position.FORWARD, Position.MIDFIELDER]).1 with _ | shooter <;>
    rcases hgk : (st.teamOf dfn).get_goalkeeper with _ | gk <;>
    rcases grp_snd_cases (st.teamOf atk) o st
      [Position.FORWARD, Position.MIDFIELDER] with h1 | h1 <;>
    simp only [resolve_shot, hsh, hgk, h1, goal_probability, randUniform,
      randFloat, log_event_eq] <;>
    (try split_ifs) <;>
    exact ⟨by simp, by simp, by simp, by simp,
      by simp [countHT, List.countP_append, List.countP_cons, nh_goal_score,
        nh_noshot]⟩

end Football

namespace Football

/-- An in-match penalty kick preserves the clock, the free-kick queue, the
flags, and never logs a halftime marker. -/
lemma play_frame_rpk_false (o : Oracle) (st : SimState) (atk dfn : Side)
    (tk : Option Player) :
    play_frame st ((resolve_penalty_kick o st atk dfn tk false).2) := by
  rcases htk : (match tk with
    | none => (st.teamOf atk).best_penalty_taker
    | some t => some t) with _ | taker
  · simp only [resolve_penalty_kick, htk]
    exact play_frame_refl st
  · rcases hgk : (st.teamOf dfn).get_goalkeeper with _ | gk
    · simp only [resolve_penalty_kick, htk, hgk]
      exact play_frame_refl st
    · simp only [resolve_penalty_kick, htk, hgk, goal_probability, randUniform,
        randFloat, log_event_eq, Bool.false_eq_true, if_false]
      split_ifs <;>
        exact ⟨by simp, by simp, by simp, by simp,
          by simp [countHT, List.countP_append, List.countP_cons, nh_converts,
            nh_missedpen]⟩

/-- A midfield battle preserves the clock, the free-kick queue, the flags,
and never logs a halftime marker. -/
lemma play_frame_resolve_midfield (o : Oracle) (st : SimState) :
    play_frame st (resolve_midfield_battle o st) := by
  rcases hp : st.possession with _ | poss
  · simp only [resolve_midfield_battle, hp]
    exact play_frame_refl st
  · simp only [resolve_midfield_battle, hp, randFloat, log_event_eq]
    split_ifs <;>
      exact ⟨by simp, by simp, by simp, by simp,
        by simp [countHT, List.countP_append, List.countP_cons, nh_advances,
          nh_wins]⟩

/-- A direct free kick preserves the clock, the free-kick queue, the flags,
and never logs a halftime marker. -/
lemma play_frame_resolve_direct_fk (o : Oracle) (st : SimState) (atk dfn : Side)
    (z : FKZone) :
    play_frame st (resolve_direct_free_kick o st atk dfn z) := by
  rcases htk : (st.teamOf atk).best_fk_taker with _ | taker <;>
    rcases hgk : (st.teamOf dfn).get_goalkeeper with _ | gk <;>
    simp only [resolve_direct_free_kick, htk, hgk, goal_probability,
      randUniform, randFloat, log_event_eq] <;>
    (try split_ifs) <;>
    exact ⟨by simp, by simp, by simp, by simp,
      by simp [countHT, List.countP_append, List.countP_cons, nh_stepsup,
        nh_goal_score, nh_nofk]⟩

lemma play_frame_pz (st : SimState) (p : Option Side) (z : Zone) :
    play_frame st { st with possession := p, zone := z } :=
  ⟨rfl, rfl, rfl, rfl, rfl⟩

lemma play_frame_rngF (st : SimState) (x : ℕ) :
    play_frame st { st with rngF := x } := ⟨rfl, rfl, rfl, rfl, rfl⟩

lemma play_frame_rngN (st : SimState) (x : ℕ) :
    play_frame st { st with rngN := x } := ⟨rfl, rfl, rfl, rfl, rfl⟩

@[simp] lemma log_event_log (st : SimState) (m i : String) (e : Option String) :
    (log_event st m i e).log = st.log ++
      (if st.logging_enabled = true then [LogEntry.mk st.minute m i e] else []) := by
  rw [log_event_eq]

@[simp] lemma countHT_ite (c : Prop) [Decidable c] (l1 l2 : List LogEntry) :
    countHT (if c then l1 else l2) = if c then countHT l1 else countHT l2 := by
  split_ifs <;> rfl

@[simp] lemma countHT_singleton (e : LogEntry) :
    countHT [e] = if e.message = "Halftime" then 1 else 0 := by
  simp [countHT, List.countP_cons]

/-- An open-play attack preserves the clock, the free-kick queue, the flags,
and never logs a halftime marker. -/
lemma play_frame_resolve_attack (o : Oracle) (st : SimState) (atk dfn : Side)
    (dm : ℚ) : play_frame st (resolve_attack o st atk dfn dm) := by
  simp only [resolve_attack, randFloat]
  split_ifs
  · refine play_frame_trans ?_ (play_frame_resolve_shot _ _ _ _)
    exact ⟨by simp, by simp, by simp, by simp, by simp [nh_chance]⟩
  · refine play_frame_trans ?_ (play_frame_resolve_shot _ _ _ _)
    exact ⟨by simp, by simp, by simp, by simp, by simp⟩
  · refine play_frame_trans ?_ (play_frame_rpk_false _ _ _ _ _)
    exact ⟨by simp, by simp, by simp, by simp, by simp [nh_pento]⟩
  · exact ⟨by simp, by simp, by simp, by simp, by simp [nh_holds]⟩
  · exact ⟨by simp, by simp, by simp, by simp, by simp⟩

/-- A scheduled free kick preserves the clock, the free-kick queue, the
flags, and never logs a halftime marker. -/
lemma play_frame_resolve_free_kick (o : Oracle) (st : SimState) (e : FKEvent) :
    play_frame st (resolve_free_kick o st e) := by
  simp only [resolve_free_kick, randFloat]
  split_ifs
  · refine play_frame_trans ?_ (play_frame_resolve_direct_fk _ _ _ _ _)
    exact ⟨by simp, by simp, by simp, by simp, by simp [nh_fkto]⟩
  · refine play_frame_trans ?_ (play_frame_resolve_attack _ _ _ _ _)
    exact ⟨by simp, by simp, by simp, by simp, by simp [nh_fkto, nh_cross]⟩
  · refine play_frame_trans ?_ (play_frame_resolve_attack _ _ _ _ _)
    exact ⟨by simp, by simp, by simp, by simp, by simp [nh_fkto, nh_cross]⟩
  · exact ⟨by simp, by simp, by simp, by simp, by simp [nh_fkto, nh_restarts]⟩

/-- One open-play tick preserves the clock, the free-kick queue, the flags,
and never logs a halftime marker. -/
lemma play_frame_process_event (o : Oracle) (st : SimState) :
    play_frame st (process_event o st) := by
  rcases hz : st.zone with _ | _ | _ <;>
    rcases hp : st.possession with _ | poss <;>
    simp only [process_event, hp, hz, randSide]
  · refine play_frame_trans ?_ (play_frame_resolve_midfield _ _)
    exact ⟨rfl, rfl, rfl, rfl, rfl⟩
  · exact play_frame_resolve_midfield _ _
  · refine play_frame_trans ?_ (play_frame_resolve_attack _ _ _ _ _)
    exact ⟨rfl, rfl, rfl, rfl, rfl⟩
  · exact play_frame_resolve_attack _ _ _ _ _
  · refine play_frame_trans ?_ (play_frame_resolve_attack _ _ _ _ _)
    exact ⟨rfl, rfl, rfl, rfl, rfl⟩
  · exact play_frame_resolve_attack _ _ _ _ _

end Football

namespace Football

/-- Draining the due free kicks: the halftime count, logging flag and
knockout flag are unchanged, the clock never moves forward, the queue only
shrinks (strictly, unless nothing was due), and the remaining queue is a
sub-collection of the old one.  The state's queue field is assumed in
lock-step with the list argument, as at every call site. -/
lemma fks_facts (o : Oracle) : ∀ (evs : List FKEvent) (st : SimState),
    st.free_kick_events = evs →
    countHT (process_fks_go o evs st).log = countHT st.log ∧
    (process_fks_go o evs st).logging_enabled = st.logging_enabled ∧
    (process_fks_go o evs st).is_knockout = st.is_knockout ∧
    (process_fks_go o evs st).minute ≤ st.minute ∧
    (process_fks_go o evs st = st ∨
      (process_fks_go o evs st).free_kick_events.length < evs.length) ∧
    (∀ f ∈ (process_fks_go o evs st).free_kick_events, f ∈ evs) := by
  intro evs
  induction evs with
  | nil =>
    intro st hsync
    refine ⟨rfl, rfl, rfl, le_refl _, Or.inl rfl, ?_⟩
    intro f hf
    rw [process_fks_go] at hf
    rw [hsync] at hf
    exact absurd hf (List.not_mem_nil f)
  | cons e rest ih =>
    intro st hsync
    rw [process_fks_go]
    split_ifs with hdue
    · have hpf := play_frame_resolve_free_kick o
        { st with minute := e.minute, free_kick_events := rest } e
      set st' := resolve_free_kick o
        { st with minute := e.minute, free_kick_events := rest } e with hst'
      have hsync' : st'.free_kick_events = rest := hpf.2.1
      obtain ⟨ih1, ih2, ih3, ih4, ih5, ih6⟩ := ih st' hsync'
      refine ⟨?_, ?_, ?_, ?_, ?_, ?_⟩
      · rw [ih1, hpf.2.2.2.2]
      · rw [ih2, hpf.2.2.1]
      · rw [ih3, hpf.2.2.2.1]
      · calc (process_fks_go o rest st').minute ≤ st'.minute := ih4
          _ = e.minute := hpf.1
          _ ≤ st.minute := hdue
      · right
        calc (process_fks_go o rest st').free_kick_events.length
            ≤ rest.length := by
              rcases ih5 with h | h
              · rw [h, hsync']
              · exact Nat.le_of_lt h
          _ < (e :: rest).length := by simp
      · intro f hf
        exact List.mem_cons_of_mem e (ih6 f hf)
    · refine ⟨rfl, rfl, rfl, le_refl _, Or.inl rfl, ?_⟩
      intro f hf
      rw [hsync] at hf
      exact hf

/-- With every queued free kick scheduled at minute 45 or later, the queue
drain is the identity before halftime, and keeps the clock at 45 or later
after it. -/
lemma fks_ge45 (o : Oracle) : ∀ (evs : List FKEvent) (st : SimState),
    st.free_kick_events = evs → (∀ f ∈ evs, 45 ≤ f.minute) →
    (st.minute < 45 → process_fks_go o evs st = st) ∧
    (45 ≤ st.minute → 45 ≤ (process_fks_go o evs st).minute) := by
  intro evs
  induction evs with
  | nil =>
    intro st hsync h45
    exact ⟨fun _ => rfl, fun h => h⟩
  | cons e rest ih =>
    intro st hsync h45
    rw [process_fks_go]
    split_ifs with hdue
    · constructor
      · intro hlt
        have := h45 e (List.mem_cons_self e rest)
        omega
      · intro hge
        have hpf := play_frame_resolve_free_kick o
          { st with minute := e.minute, free_kick_events := rest } e
        set st' := resolve_free_kick o
          { st with minute := e.minute, free_kick_events := rest } e with hst'
        have hsync' : st'.free_kick_events = rest := hpf.2.1
        have h45' : ∀ f ∈ rest, 45 ≤ f.minute :=
          fun f hf => h45 f (List.mem_cons_of_mem e hf)
        obtain ⟨_, ih2⟩ := ih st' hsync' h45'
        apply ih2
        have hm : st'.minute = e.minute := hpf.1
        rw [hm]
        exact h45 e (List.mem_cons_self e rest)
    · exact ⟨fun _ => rfl, fun h => h⟩

end Football

namespace Football

/-- When the head of the queue (if any) is not yet due, the queue drain does
nothing. -/
lemma fks_nopop (o : Oracle) (evs : List FKEvent) (st : SimState)
    (h : ∀ f, evs.head? = some f → ¬ f.minute ≤ st.minute) :
    process_fks_go o evs st = st := by
  cases evs with
  | nil => rfl
  | cons e rest =>
    rw [process_fks_go]
    exact if_neg (h e rfl)

/-- The main loop is the identity once the clock has reached 90. -/
lemma sim_loop_done (o : Oracle) (fuel : ℕ) (st : SimState)
    (h : ¬ st.minute < 90) : sim_loop o fuel st = st := by
  cases fuel with
  | zero => rfl
  | succ n =>
    rw [sim_loop]
    exact if_neg h

/-- Uniform squad member for the double-halftime run. -/
def c6p (n : ℕ) (pos : Position) : Player :=
  { id := n, name := "P", position := pos, skill := 100000,
    free_kick_ability := 0, penalty_taking := 0, penalty_saving := 0,
    shape := 100, morale := 80, personality := Personality.PROFESSIONAL }

def c6ids : List ℕ := [1, 2, 3, 4, 5, 6, 7, 8, 9, 10, 11]

/-- Home side of the double-halftime run: a goalkeeper and ten defenders,
all of skill 100000 — an empty midfield (zonal baseline 20) and a crushing
defense. -/
def c6A : MatchTeam := mkMatchTeam
  { name := "Alpha", players :=
      [c6p 1 Position.GOALKEEPER, c6p 2 Position.DEFENDER,
       c6p 3 Position.DEFENDER, c6p 4 Position.DEFENDER,
       c6p 5 Position.DEFENDER, c6p 6 Position.DEFENDER,
       c6p 7 Position.DEFENDER, c6p 8 Position.DEFENDER,
       c6p 9 Position.DEFENDER, c6p 10 Position.DEFENDER,
       c6p 11 Position.DEFENDER] } true (some c6ids)

/-- Away side: a goalkeeper and ten midfielders of skill 100000 — total
midfield control, an empty forward line (zonal baseline 20). -/
def c6B : MatchTeam := mkMatchTeam
  { name := "Beta", players :=
      [c6p 1 Position.GOALKEEPER, c6p 2 Position.MIDFIELDER,
       c6p 3 Position.MIDFIELDER, c6p 4 Position.MIDFIELDER,
       c6p 5 Position.MIDFIELDER, c6p 6 Position.MIDFIELDER,
       c6p 7 Position.MIDFIELDER, c6p 8 Position.MIDFIELDER,
       c6p 9 Position.MIDFIELDER, c6p 10 Position.MIDFIELDER,
       c6p 11 Position.MIDFIELDER] } false (some c6ids)

/-- Draw sequence of the double-halftime run: every float draw is 1/2 and
every integer draw is 5 (so every clock increment is 6 minutes). -/
def o6 : Oracle := { floats := fun _ => 1/2, nats := fun _ => 5, gauss := fun _ => 0 }

/-- State builder for the run: the two fixed teams, logging on, friendly
match, with the varying fields explicit. -/
def c6st (m : ℕ) (z : Zone) (p : Option Side) (evs : List FKEvent)
    (l : List LogEntry) (rf rn : ℕ) : SimState :=
  { team_a := c6A
    team_b := c6B
    logging_enabled := true
    is_knockout := false
    log := l
    minute := m
    zone := z
    possession := p
    free_kick_events := evs
    shootout_score_a := 0
    shootout_score_b := 0
    winner_on_penalties := none
    rngF := rf
    rngN := rn }

/-- The free-kick schedule of the run: one kick at minute 44 for the away
side from the middle zone, and nine at minute 90 that never come due. -/
def e44 : FKEvent := { minute := 44, team := Side.B, zone := FKZone.MIDDLE }

def e90 : FKEvent := { minute := 90, team := Side.A, zone := FKZone.DEEP }

/-- The nine late kicks that never come due before the final whistle. -/
def c6rest : List FKEvent := [e90, e90, e90, e90, e90, e90, e90, e90, e90]

def c6evs : List FKEvent := e44 :: c6rest

lemma posBeq (a b : Position) : (a == b) = decide (a = b) := rfl

lemma c6A_mid : c6A.zonal_strength Position.MIDFIELDER = 104/5 := by
  simp +decide [c6A, mkMatchTeam, select_lineup, zonal_base, c6ids, c6p,
    List.filter, posBeq, HOME_ADVANTAGE_BOOST]
  try norm_num

lemma c6B_mid : c6B.zonal_strength Position.MIDFIELDER = 100000 := by
  simp +decide [c6B, mkMatchTeam, select_lineup, zonal_base, c6ids, c6p,
    List.filter, posBeq, Player.effective_skill, MORALE_EFFECT_ACTIVE]
  try norm_num

lemma c6B_fwd : c6B.zonal_strength Position.FORWARD = 20 := by
  simp +decide [c6B, mkMatchTeam, select_lineup, zonal_base, c6ids, c6p,
    List.filter, posBeq]
  try norm_num

lemma c6A_def : c6A.zonal_strength Position.DEFENDER = 104000 := by
  simp +decide [c6A, mkMatchTeam, select_lineup, zonal_base, c6ids, c6p,
    List.filter, posBeq, Player.effective_skill, MORALE_EFFECT_ACTIVE,
    HOME_ADVANTAGE_BOOST]
  try norm_num

lemma c6A_gk : c6A.zonal_strength Position.GOALKEEPER = 104000 := by
  simp +decide [c6A, mkMatchTeam, select_lineup, zonal_base, c6ids, c6p,
    List.filter, posBeq, Player.effective_skill, MORALE_EFFECT_ACTIVE,
    HOME_ADVANTAGE_BOOST]
  try norm_num

end Football

namespace Football

/-- A conditionally-logged event on a logging state, as one record update. -/
lemma log_event_ite (c : Prop) [Decidable c] (st : SimState) (msg i : String)
    (e : Option String) (hl : st.logging_enabled = true) :
    (if c then log_event st msg i e else st) =
    { st with log := st.log ++
      (if c then [LogEntry.mk st.minute msg i e] else []) } := by
  split_ifs with h
  · rw [log_event_eq, hl]
    simp
  · simp

/-- One loop tick with possession Alpha in midfield: Alpha's empty midfield
(baseline 20.8) loses the ball to Beta's 100000-rated midfield with clamped
probability 1 (the advance roll fails against probability 0). -/
lemma c6_tick_AM (fuel m : ℕ) (evs : List FKEvent) (l : List LogEntry)
    (rf rn : ℕ) (hm : m < 90)
    (hfk : ∀ f, evs.head? = some f → ¬ f.minute ≤ m) :
    sim_loop o6 (fuel + 1) (c6st m Zone.M (some Side.A) evs l rf rn) =
    sim_loop o6 fuel (c6st (min (m + 6) 90) Zone.M (some Side.B) evs
      (l ++ (if m < 45 ∧ 45 ≤ min (m + 6) 90 then
          [LogEntry.mk (min (m + 6) 90) "Halftime" "info" none] else []) ++
        [LogEntry.mk (min (m + 6) 90) ("Beta" ++ " wins the ball.") "normal" none])
      (rf + 1) (rn + 1)) := by
  have hst : process_scheduled_free_kicks o6
      (c6st m Zone.M (some Side.A) evs l rf rn) =
      c6st m Zone.M (some Side.A) evs l rf rn :=
    fks_nopop _ _ _ (fun f hf => hfk f hf)
  have hprob : logistic_probability
      ((c6A.zonal_strength Position.MIDFIELDER : ℚ) : ℝ)
      ((c6B.zonal_strength Position.MIDFIELDER : ℚ) : ℝ)
      ((MIDFIELD_SCALING : ℚ) : ℝ) = 0 := by
    rw [c6A_mid, c6B_mid]
    refine logistic_eq_zero ?_ ?_
    · norm_num [MIDFIELD_SCALING]
    · push_cast [MIDFIELD_SCALING]
      norm_num
  rw [sim_loop]
  rw [if_pos (show (c6st m Zone.M (some Side.A) evs l rf rn).minute < 90 from hm)]
  simp only [hst]
  rw [if_neg (show ¬ 90 ≤ (c6st m Zone.M (some Side.A) evs l rf rn).minute
    from by simp only [c6st]; omega)]
  simp only [randNat, o6, c6st, eq_self_iff_true, true_and]
  rw [log_event_ite _ _ _ _ _ rfl]
  simp only [process_event, resolve_midfield_battle, SimState.teamOf, other,
    randFloat, hprob]
  norm_num
  rw [log_event_eq]
  have hname : c6B.team.name = "Beta" := rfl
  simp [hname, List.append_assoc]

/-- One loop tick with possession Beta in midfield: Beta advances into the
attacking zone with clamped probability 1. -/
lemma c6_tick_BM (fuel m : ℕ) (evs : List FKEvent) (l : List LogEntry)
    (rf rn : ℕ) (hm : m < 90)
    (hfk : ∀ f, evs.head? = some f → ¬ f.minute ≤ m) :
    sim_loop o6 (fuel + 1) (c6st m Zone.M (some Side.B) evs l rf rn) =
    sim_loop o6 fuel (c6st (min (m + 6) 90) Zone.B (some Side.B) evs
      (l ++ (if m < 45 ∧ 45 ≤ min (m + 6) 90 then
          [LogEntry.mk (min (m + 6) 90) "Halftime" "info" none] else []) ++
        [LogEntry.mk (min (m + 6) 90) ("Beta" ++ " advances.") "normal" none])
      (rf + 1) (rn + 1)) := by
  have hst : process_scheduled_free_kicks o6
      (c6st m Zone.M (some Side.B) evs l rf rn) =
      c6st m Zone.M (some Side.B) evs l rf rn :=
    fks_nopop _ _ _ (fun f hf => hfk f hf)
  have hprob : logistic_probability
      ((c6B.zonal_strength Position.MIDFIELDER : ℚ) : ℝ)
      ((c6A.zonal_strength Position.MIDFIELDER : ℚ) : ℝ)
      ((MIDFIELD_SCALING : ℚ) : ℝ) = 1 := by
    rw [c6A_mid, c6B_mid]
    refine logistic_eq_one ?_ ?_
    · norm_num [MIDFIELD_SCALING]
    · push_cast [MIDFIELD_SCALING]
      norm_num
  rw [sim_loop]
  rw [if_pos (show (c6st m Zone.M (some Side.B) evs l rf rn).minute < 90 from hm)]
  simp only [hst]
  rw [if_neg (show ¬ 90 ≤ (c6st m Zone.M (some Side.B) evs l rf rn).minute
    from by simp only [c6st]; omega)]
  simp only [randNat, o6, c6st, eq_self_iff_true, true_and]
  rw [log_event_ite _ _ _ _ _ rfl]
  simp only [process_event, resolve_midfield_battle, SimState.teamOf, other,
    randFloat, hprob]
  norm_num
  rw [log_event_eq]
  have hname : c6B.team.name = "Beta" := rfl
  simp [hname, List.append_assoc]

/-- One loop tick with Beta attacking: the forward line (baseline 20) is
shut down by Alpha's defense with clamped probability 1, no penalty is
awarded (0.5 ≥ 0.03), and the defense holds. -/
lemma c6_tick_BB (fuel m : ℕ) (evs : List FKEvent) (l : List LogEntry)
    (rf rn : ℕ) (hm : m < 90)
    (hfk : ∀ f, evs.head? = some f → ¬ f.minute ≤ m) :
    sim_loop o6 (fuel + 1) (c6st m Zone.B (some Side.B) evs l rf rn) =
    sim_loop o6 fuel (c6st (min (m + 6) 90) Zone.M (some Side.A) evs
      (l ++ (if m < 45 ∧ 45 ≤ min (m + 6) 90 then
          [LogEntry.mk (min (m + 6) 90) "Halftime" "info" none] else []) ++
        [LogEntry.mk (min (m + 6) 90) ("Alpha" ++ "'s defense holds firm.")
          "normal" (some "DEFENSIVE_STOP")])
      (rf + 2) (rn + 1)) := by
  have hst : process_scheduled_free_kicks o6
      (c6st m Zone.B (some Side.B) evs l rf rn) =
      c6st m Zone.B (some Side.B) evs l rf rn :=
    fks_nopop _ _ _ (fun f hf => hfk f hf)
  have hgate : ((1 - DEF_GK_BLEND) * c6A.zonal_strength Position.DEFENDER +
      DEF_GK_BLEND * c6A.zonal_strength Position.GOALKEEPER) * 1 = 104000 := by
    rw [c6A_def, c6A_gk]
    norm_num [DEF_GK_BLEND]
  have hprob : logistic_probability
      ((c6B.zonal_strength Position.FORWARD : ℚ) : ℝ)
      ((((1 - DEF_GK_BLEND) * c6A.zonal_strength Position.DEFENDER +
        DEF_GK_BLEND * c6A.zonal_strength Position.GOALKEEPER) * 1 : ℚ) : ℝ)
      ((ATTACK_SCALING : ℚ) : ℝ) = 0 := by
    rw [hgate, c6B_fwd]
    refine logistic_eq_zero ?_ ?_
    · norm_num [ATTACK_SCALING]
    · push_cast [ATTACK_SCALING]
      norm_num
  rw [sim_loop]
  rw [if_pos (show (c6st m Zone.B (some Side.B) evs l rf rn).minute < 90 from hm)]
  simp only [hst]
  rw [if_neg (show ¬ 90 ≤ (c6st m Zone.B (some Side.B) evs l rf rn).minute
    from by simp only [c6st]; omega)]
  simp only [randNat, o6, c6st, eq_self_iff_true, true_and]
  rw [log_event_ite _ _ _ _ _ rfl]
  simp only [process_event, resolve_attack, SimState.teamOf, randFloat, hprob]
  norm_num [PENALTY_AWARD_PROBABILITY]
  rw [log_event_eq]
  have hname : c6A.team.name = "Alpha" := rfl
  simp [hname, List.append_assoc]

end Football

namespace Football

/-- Resolution of the minute-44 free kick once it is popped at minute 48:
the 0.5 action roll exceeds both the direct (0.02) and indirect (0.42)
thresholds for a middle-zone kick, so Beta just restarts play safely. -/
lemma c6_rfk : ∀ (l : List LogEntry) (rf rn : ℕ),
    resolve_free_kick o6 (c6st 44 Zone.B (some Side.B) c6rest l rf rn) e44 =
    c6st 44 Zone.M (some Side.B) c6rest
      (l ++ [LogEntry.mk 44 ("Free Kick to " ++ "Beta" ++ " in a " ++
          "middle" ++ " position.") "set_piece" (some "FREE_KICK"),
        LogEntry.mk 44 ("Beta" ++ " restarts play safely.") "minor"
          (some "FK_RESTART")])
      (rf + 1) rn := by
  intro l rf rn
  have hname : c6B.team.name = "Beta" := rfl
  simp only [resolve_free_kick, e44, FK_ZONES, fkZoneLower, randFloat, o6,
    c6st, SimState.teamOf, other, log_event_eq]
  norm_num
  simp [hname, List.append_assoc]

end Football

namespace Football

/-- The queue drain at minute 48: the minute-44 kick is due, the clock is
rewound to 44 for its resolution, and the nine minute-90 kicks stay queued. -/
lemma c6_fks : ∀ (l : List LogEntry) (rf rn : ℕ),
    process_scheduled_free_kicks o6 (c6st 48 Zone.B (some Side.B) c6evs l rf rn) =
    c6st 44 Zone.M (some Side.B) c6rest
      (l ++ [LogEntry.mk 44 ("Free Kick to " ++ "Beta" ++ " in a " ++
          "middle" ++ " position.") "set_piece" (some "FREE_KICK"),
        LogEntry.mk 44 ("Beta" ++ " restarts play safely.") "minor"
          (some "FK_RESTART")])
      (rf + 1) rn := by
  intro l rf rn
  rw [process_scheduled_free_kicks]
  show process_fks_go o6 c6evs (c6st 48 Zone.B (some Side.B) c6evs l rf rn) = _
  rw [show c6evs = e44 :: c6rest from rfl]
  rw [process_fks_go]
  rw [if_pos (show e44.minute ≤
    (c6st 48 Zone.B (some Side.B) (e44 :: c6rest) l rf rn).minute
    from by simp only [c6st, e44]; omega)]
  rw [show ({ c6st 48 Zone.B (some Side.B) (e44 :: c6rest) l rf rn with
      minute := e44.minute, free_kick_events := c6rest } : SimState) =
    c6st 44 Zone.B (some Side.B) c6rest l rf rn from rfl]
  rw [c6_rfk]
  refine fks_nopop _ _ _ ?_
  intro f hf
  rw [show c6rest.head? = some e90 from rfl] at hf
  injection hf with hf
  subst hf
  simp only [c6st, e90]
  omega

end Football

namespace Football

/-- The double-halftime tick: at minute 48 (first halftime already logged)
the minute-44 free kick is popped, the clock rewinds to 44, and the next
increment re-crosses minute 45 — logging a second "Halftime" entry. -/
lemma c6_tick_FK (fuel : ℕ) (l : List LogEntry) (rf rn : ℕ) :
    sim_loop o6 (fuel + 1) (c6st 48 Zone.B (some Side.B) c6evs l rf rn) =
    sim_loop o6 fuel (c6st 50 Zone.B (some Side.B) c6rest
      (l ++ [LogEntry.mk 44 ("Free Kick to " ++ "Beta" ++ " in a " ++
          "middle" ++ " position.") "set_piece" (some "FREE_KICK"),
        LogEntry.mk 44 ("Beta" ++ " restarts play safely.") "minor"
          (some "FK_RESTART"),
        LogEntry.mk 50 "Halftime" "info" none,
        LogEntry.mk 50 ("Beta" ++ " advances.") "normal" none])
      (rf + 2) (rn + 1)) := by
  have hprob : logistic_probability
      ((c6B.zonal_strength Position.MIDFIELDER : ℚ) : ℝ)
      ((c6A.zonal_strength Position.MIDFIELDER : ℚ) : ℝ)
      ((MIDFIELD_SCALING : ℚ) : ℝ) = 1 := by
    rw [c6A_mid, c6B_mid]
    refine logistic_eq_one ?_ ?_
    · norm_num [MIDFIELD_SCALING]
    · push_cast [MIDFIELD_SCALING]
      norm_num
  rw [sim_loop]
  rw [if_pos (show (c6st 48 Zone.B (some Side.B) c6evs l rf rn).minute < 90
    from by simp only [c6st]; omega)]
  simp only [c6_fks]
  rw [if_neg (show ¬ 90 ≤ (c6st 44 Zone.M (some Side.B) c6rest
      (l ++ [LogEntry.mk 44 ("Free Kick to " ++ "Beta" ++ " in a " ++
          "middle" ++ " position.") "set_piece" (some "FREE_KICK"),
        LogEntry.mk 44 ("Beta" ++ " restarts play safely.") "minor"
          (some "FK_RESTART")]) (rf + 1) rn).minute
    from by simp only [c6st]; omega)]
  simp only [randNat, o6, c6st, eq_self_iff_true, true_and]
  rw [log_event_ite _ _ _ _ _ rfl]
  simp only [process_event, resolve_midfield_battle, SimState.teamOf, other,
    randFloat, hprob]
  norm_num
  rw [log_event_eq]
  have hname : c6B.team.name = "Beta" := rfl
  simp [hname, List.append_assoc]

end Football

namespace Football

/-- Initial state of the double-halftime run. -/
def c6_state0 : SimState := c6st 0 Zone.M (some Side.A) c6evs [] 0 0

lemma c6_hfk6 : ∀ (m : ℕ), m < 44 → ∀ f, c6evs.head? = some f →
    ¬ f.minute ≤ m := by
  intro m hm f hf
  rw [show c6evs.head? = some e44 from rfl] at hf
  injection hf with hf
  subst hf
  simp only [e44]
  omega

lemma c6_hfk9 : ∀ (m : ℕ), m < 90 → ∀ f, c6rest.head? = some f →
    ¬ f.minute ≤ m := by
  intro m hm f hf
  rw [show c6rest.head? = some e90 from rfl] at hf
  injection hf with hf
  subst hf
  simp only [e90]
  omega

lemma c6_kick : ∀ (M : String),
    (if c6_state0.logging_enabled = true
      then log_event c6_state0 M "info" none else c6_state0) =
    c6st 0 Zone.M (some Side.A) c6evs [LogEntry.mk 0 M "info" none] 0 0 := by
  intro M
  rw [if_pos (show c6_state0.logging_enabled = true from rfl), log_event_eq]
  simp [c6_state0, c6st]

lemma c6_loop_fuel : ∀ (l : List LogEntry),
    loop_fuel (c6st 0 Zone.M (some Side.A) c6evs l 0 0) = 1001 := fun _ => rfl

/-- Outcome of the whole regulation run on the double-halftime schedule:
the final log contains exactly TWO halftime markers, and the match is not a
knockout (so `simulate` stops here). -/
lemma c6_run : countHT (after_regulation o6 c6_state0).log = 2 ∧
    (after_regulation o6 c6_state0).is_knockout = false := by
  rw [after_regulation]
  simp only [c6_kick, c6_loop_fuel]
  rw [show (1001 : ℕ) = 1000 + 1 from rfl, c6_tick_AM]
  norm_num
  rw [show (1000 : ℕ) = 999 + 1 from rfl, c6_tick_BM]
  norm_num
  rw [show (999 : ℕ) = 998 + 1 from rfl, c6_tick_BB]
  norm_num
  rw [show (998 : ℕ) = 997 + 1 from rfl, c6_tick_AM]
  norm_num
  rw [show (997 : ℕ) = 996 + 1 from rfl, c6_tick_BM]
  norm_num
  rw [show (996 : ℕ) = 995 + 1 from rfl, c6_tick_BB]
  norm_num
  rw [show (995 : ℕ) = 994 + 1 from rfl, c6_tick_AM]
  norm_num
  rw [show (994 : ℕ) = 993 + 1 from rfl, c6_tick_BM]
  norm_num
  rw [show (993 : ℕ) = 992 + 1 from rfl, c6_tick_FK]
  rw [show (992 : ℕ) = 991 + 1 from rfl, c6_tick_BB]
  norm_num
  rw [show (991 : ℕ) = 990 + 1 from rfl, c6_tick_AM]
  norm_num
  rw [show (990 : ℕ) = 989 + 1 from rfl, c6_tick_BM]
  norm_num
  rw [show (989 : ℕ) = 988 + 1 from rfl, c6_tick_BB]
  norm_num
  rw [show (988 : ℕ) = 987 + 1 from rfl, c6_tick_AM]
  norm_num
  rw [show (987 : ℕ) = 986 + 1 from rfl, c6_tick_BM]
  norm_num
  rw [show (986 : ℕ) = 985 + 1 from rfl, c6_tick_BB]
  norm_num
  rw [sim_loop_done]
  · constructor
    · rw [log_event_eq]
      simp only [c6st]
      decide
    · rw [log_event_eq]
      rfl
  all_goals first
    | omega
    | exact c6_hfk6 _ (by omega)
    | exact c6_hfk9 _ (by omega)
    | (simp only [c6st]; omega)

end Football

namespace Football

lemma c6_eleven : ¬(c6_state0.team_a.get_starting_11.length < 11 ∨
    c6_state0.team_b.get_starting_11.length < 11) := by decide

/-- C6 counterexample: a full simulation (both sides field eleven, logging
enabled, clock from 0, empty log) whose returned log carries TWO "Halftime"
entries.  A free kick scheduled at minute 44 is still queued when an
increment jumps the clock from 42 to 48 (first marker); the next iteration
pops the kick, rewinds the clock to 44, and the following increment crosses
45 again (second marker). -/
theorem claim_C6_counterexample :
    ¬(c6_state0.team_a.get_starting_11.length < 11 ∨
      c6_state0.team_b.get_starting_11.length < 11) ∧
    c6_state0.logging_enabled = true ∧ c6_state0.minute = 0 ∧
    c6_state0.log = [] ∧
    ∀ r, simulate o6 0 c6_state0 = some r → countHT r.log = 2 := by
  refine ⟨c6_eleven, rfl, rfl, rfl, ?_⟩
  intro r hr
  have hko : ¬((after_regulation o6 c6_state0).is_knockout = true ∧
      (after_regulation o6 c6_state0).team_a.score =
        (after_regulation o6 c6_state0).team_b.score) := by
    intro h
    obtain ⟨h1, _⟩ := h
    rw [c6_run.2] at h1
    exact Bool.noConfusion h1
  simp only [simulate] at hr
  rw [if_neg c6_eleven] at hr
  rw [if_neg hko] at hr
  injection hr with hr
  rw [← hr]
  show countHT (after_regulation o6 c6_state0).log = 2
  exact c6_run.1

end Football

namespace Football

lemma process_event_minute (o : Oracle) (st : SimState) :
    (process_event o st).minute = st.minute := (play_frame_process_event o st).1

lemma process_event_evs (o : Oracle) (st : SimState) :
    (process_event o st).free_kick_events = st.free_kick_events :=
  (play_frame_process_event o st).2.1

lemma process_event_logging (o : Oracle) (st : SimState) :
    (process_event o st).logging_enabled = st.logging_enabled :=
  (play_frame_process_event o st).2.2.1

lemma process_event_countHT (o : Oracle) (st : SimState) :
    countHT (process_event o st).log = countHT st.log :=
  (play_frame_process_event o st).2.2.2.2

/-- Fuel sufficiency for the main loop: each iteration either strictly
shrinks the free-kick queue or strictly advances the clock, so the measure
`91·queue + (91 − minute)` bounds the iterations needed to reach minute 90. -/
lemma sim_loop_exit (o : Oracle) : ∀ (fuel : ℕ) (st : SimState),
    91 * st.free_kick_events.length + 91 - st.minute ≤ fuel →
    90 ≤ (sim_loop o fuel st).minute := by
  intro fuel
  induction fuel with
  | zero =>
    intro st h
    rw [sim_loop]
    omega
  | succ n ih =>
    intro st h
    simp only [sim_loop]
    split_ifs with h90 hq hHT
    · exact hq
    · apply ih
      obtain ⟨hc, _, _, hmin, hor, _⟩ :=
        fks_facts o st.free_kick_events st rfl
      rw [process_event_minute, process_event_evs]
      simp only [log_event_minute, log_event_evs, randNat,
        process_scheduled_free_kicks] at hq ⊢
      rcases hor with heq | hlt
      · rw [heq] at hq ⊢
        omega
      · omega
    · apply ih
      obtain ⟨hc, _, _, hmin, hor, _⟩ :=
        fks_facts o st.free_kick_events st rfl
      rw [process_event_minute, process_event_evs]
      simp only [randNat, process_scheduled_free_kicks] at hq ⊢
      rcases hor with heq | hlt
      · rw [heq] at hq ⊢
        omega
      · omega
    · omega

end Football

namespace Football

/-- Lower-bound invariant: with logging on, once the clock has passed 45 the
log holds at least one halftime marker (the disjunction is preserved by
every loop iteration). -/
lemma sim_loop_ht_lb (o : Oracle) : ∀ (fuel : ℕ) (st : SimState),
    st.logging_enabled = true →
    (st.minute < 45 ∨ 1 ≤ countHT st.log) →
    ((sim_loop o fuel st).minute < 45 ∨ 1 ≤ countHT (sim_loop o fuel st).log) := by
  intro fuel
  induction fuel with
  | zero =>
    intro st _ hinv
    simpa [sim_loop] using hinv
  | succ n ih =>
    intro st hlog hinv
    simp only [sim_loop]
    split_ifs with h90 hq hHT
    · obtain ⟨hc, _, _, hmin, _, _⟩ := fks_facts o st.free_kick_events st rfl
      simp only [process_scheduled_free_kicks]
      rcases hinv with hlt | hone
      · exact Or.inl (by omega)
      · exact Or.inr (by omega)
    · apply ih
      · rw [process_event_logging]
        obtain ⟨_, hlg, _, _, _, _⟩ := fks_facts o st.free_kick_events st rfl
        simp only [log_event_logging, randNat, process_scheduled_free_kicks]
        rw [hlg]
        exact hlog
      · right
        rw [process_event_countHT]
        obtain ⟨hA, _, _⟩ := hHT
        simp only [log_event_log, countHT_append, countHT_ite, countHT_singleton]
        rw [if_pos hA]
        simp
    · apply ih
      · rw [process_event_logging]
        obtain ⟨_, hlg, _, _, _, _⟩ := fks_facts o st.free_kick_events st rfl
        simp only [randNat, process_scheduled_free_kicks]
        rw [hlg]
        exact hlog
      · obtain ⟨hc, hlg, _, hmin, _, _⟩ := fks_facts o st.free_kick_events st rfl
        rcases hinv with hlt | hone
        · left
          rw [process_event_minute]
          by_contra hge
          push_neg at hge
          apply hHT
          refine ⟨?_, ?_, ?_⟩
          · simp only [randNat, process_scheduled_free_kicks]
            rw [hlg]
            exact hlog
          · simp only [randNat, process_scheduled_free_kicks]
            omega
          · simpa using hge
        · right
          rw [process_event_countHT]
          simp only [randNat, process_scheduled_free_kicks]
          omega
    · exact hinv

end Football

namespace Football

/-- Exactness invariant: with logging on and no free kick scheduled before
minute 45, each loop iteration preserves "exactly one marker once past 45,
none before" (the queue rewind of the counterexample is impossible). -/
lemma sim_loop_ht_ub (o : Oracle) : ∀ (fuel : ℕ) (st : SimState),
    st.logging_enabled = true →
    (∀ f ∈ st.free_kick_events, 45 ≤ f.minute) →
    ((st.minute < 45 ∧ countHT st.log = 0) ∨
      (45 ≤ st.minute ∧ countHT st.log = 1)) →
    (((sim_loop o fuel st).minute < 45 ∧ countHT (sim_loop o fuel st).log = 0) ∨
      (45 ≤ (sim_loop o fuel st).minute ∧
        countHT (sim_loop o fuel st).log = 1)) := by
  intro fuel
  induction fuel with
  | zero =>
    intro st _ _ hinv
    simpa [sim_loop] using hinv
  | succ n ih =>
    intro st hlog h45 hinv
    have hge := fks_ge45 o st.free_kick_events st rfl h45
    obtain ⟨hc, hlg, _, hmin, _, hmem⟩ := fks_facts o st.free_kick_events st rfl
    simp only [sim_loop]
    split_ifs with h90 hq hHT
    · simp only [process_scheduled_free_kicks]
      rcases hinv with ⟨hm45, hc0⟩ | ⟨hm45, hc1⟩
      · rw [hge.1 hm45]
        exact Or.inl ⟨hm45, hc0⟩
      · exact Or.inr ⟨hge.2 hm45, by omega⟩
    · obtain ⟨hA, hB, hC⟩ := hHT
      rcases hinv with ⟨hm45, hc0⟩ | ⟨hm45, hc1⟩
      · have heq := hge.1 hm45
        apply ih
        · rw [process_event_logging]
          simp only [log_event_logging, randNat, process_scheduled_free_kicks]
          rw [heq]
          exact hlog
        · rw [process_event_evs]
          simp only [log_event_evs, randNat, process_scheduled_free_kicks]
          rw [heq]
          exact h45
        · right
          constructor
          · rw [process_event_minute]
            simp only [log_event_minute, randNat, process_scheduled_free_kicks]
            simpa using hC
          · rw [process_event_countHT]
            simp only [log_event_log, countHT_append, countHT_ite,
              countHT_singleton]
            rw [if_pos hA]
            simp only [randNat, process_scheduled_free_kicks]
            rw [heq]
            simp [hc0]
      · exfalso
        simp only [randNat, process_scheduled_free_kicks] at hB
        have := hge.2 hm45
        omega
    · apply ih
      · rw [process_event_logging]
        simp only [randNat, process_scheduled_free_kicks]
        rw [hlg]
        exact hlog
      · rw [process_event_evs]
        simp only [randNat, process_scheduled_free_kicks]
        intro f hf
        exact h45 f (hmem f hf)
      · rcases hinv with ⟨hm45, hc0⟩ | ⟨hm45, hc1⟩
        · have heq := hge.1 hm45
          left
          constructor
          · rw [process_event_minute]
            by_contra hgeC
            push_neg at hgeC
            apply hHT
            refine ⟨?_, ?_, ?_⟩
            · simp only [randNat, process_scheduled_free_kicks]
              rw [heq]
              exact hlog
            · simp only [randNat, process_scheduled_free_kicks]
              rw [heq]
              omega
            · simpa using hgeC
          · rw [process_event_countHT]
            simp only [randNat, process_scheduled_free_kicks]
            rw [heq]
            exact hc0
        · right
          constructor
          · rw [process_event_minute]
            have := hge.2 hm45
            simp only [randNat, process_scheduled_free_kicks]
            omega
          · rw [process_event_countHT]
            simp only [randNat, process_scheduled_free_kicks]
            omega
    · exact hinv

end Football

namespace Football

@[simp] lemma log_ite (c : Prop) [Decidable c] (a b : SimState) :
    (if c then a else b).log = if c then a.log else b.log := apply_ite _ c a b

@[simp] lemma countHT_le_round (st : SimState) (x ip : String)
    (et : Option String) :
    countHT (log_event st ("--- Shootout Round " ++ x ++ " ---") ip et).log =
    countHT st.log := countHT_log_event _ _ _ _ (nh_round x)

@[simp] lemma countHT_le_scoreline (st : SimState) (a x y b ip : String)
    (et : Option String) :
    countHT (log_event st
      ("Score: " ++ a ++ " " ++ x ++ " - " ++ y ++ " " ++ b) ip et).log =
    countHT st.log := countHT_log_event _ _ _ _ (nh_scoreline a x y b)

@[simp] lemma countHT_le_sdround (st : SimState) (x ip : String)
    (et : Option String) :
    countHT (log_event st ("--- Sudden Death Round " ++ x ++ " ---") ip et).log =
    countHT st.log := countHT_log_event _ _ _ _ (nh_sd_round x)

@[simp] lemma countHT_le_sd (st : SimState) (ip : String) (et : Option String) :
    countHT (log_event st "--- Sudden Death ---" ip et).log =
    countHT st.log := countHT_log_event _ _ _ _ nh_sd

@[simp] lemma countHT_le_win (st : SimState) (w x y ip : String)
    (et : Option String) :
    countHT (log_event st
      (w ++ " wins the shootout " ++ x ++ "-" ++ y ++ "!") ip et).log =
    countHT st.log := countHT_log_event _ _ _ _ (nh_shootout_win w x y)

@[simp] lemma countHT_le_drawn (st : SimState) (ip : String)
    (et : Option String) :
    countHT (log_event st
      "The match is drawn. A penalty shootout will decide the winner!"
      ip et).log = countHT st.log := countHT_log_event _ _ _ _ nh_drawn

/-- A shootout kick never logs a halftime marker. -/
@[simp] lemma countHT_rpk_true (o : Oracle) (st : SimState) (atk dfn : Side)
    (tk : Option Player) :
    countHT ((resolve_penalty_kick o st atk dfn tk true).2).log =
    countHT st.log := by
  rcases htk : (match tk with
    | none => (st.teamOf atk).best_penalty_taker
    | some t => some t) with _ | taker
  · simp [resolve_penalty_kick, htk]
  · rcases hgk : (st.teamOf dfn).get_goalkeeper with _ | gk
    · simp [resolve_penalty_kick, htk, hgk]
    · simp only [resolve_penalty_kick, htk, hgk, goal_probability,
        randUniform, randFloat, log_event_eq]
      split_ifs <;>
        simp [countHT, List.countP_append, List.countP_cons, nh_pk_scores,
          nh_saved]

@[simp] lemma countHT_finish (st : SimState) :
    countHT (shootout_finish st).log = countHT st.log := by
  simp only [shootout_finish]
  rw [countHT_log_event _ _ _ _ (nh_shootout_win _ _ _)]

/-- The best-of-five phase never logs a halftime marker. -/
lemma shootout_rounds_count (o : Oracle) (tA tB : List Player) :
    ∀ (n i : ℕ) (st st' : SimState),
      shootout_rounds o tA tB n i st = some st' →
      countHT st'.log = countHT st.log := by
  intro n
  induction n with
  | zero =>
    intro i st st' h
    rw [shootout_rounds] at h
    injection h with h
    subst h
    rfl
  | succ n ih =>
    intro i st st' h
    rw [shootout_rounds] at h
    rcases htA : tA.get? i with _ | kA <;>
      rcases htB : tB.get? i with _ | kB <;>
      simp only [htA, htB] at h <;>
      try split_ifs at h
    all_goals first
      | exact Option.noConfusion h
      | (injection h with h; subst h;
          simp [nh_round, nh_scoreline, nh_pk_scores, nh_saved])
      | (rw [ih _ _ _ h];
          simp [nh_round, nh_scoreline, nh_pk_scores, nh_saved])

/-- The sudden-death phase never logs a halftime marker. -/
lemma sudden_death_count (o : Oracle) (rA rB : List Player) :
    ∀ (fuel round_num : ℕ) (st st' : SimState),
      sudden_death o rA rB fuel round_num st = some st' →
      countHT st'.log = countHT st.log := by
  intro fuel
  induction fuel with
  | zero =>
    intro rn st st' h
    rw [sudden_death] at h
    exact Option.noConfusion h
  | succ n ih =>
    intro rn st st' h
    rw [sudden_death] at h
    split_ifs at h
    · rcases hrA : rA.get? (rn % rA.length) with _ | kA <;>
        rcases hrB : rB.get? (rn % rB.length) with _ | kB <;>
        simp only [hrA, hrB] at h
      all_goals first
        | exact Option.noConfusion h
        | (rw [ih _ _ _ h];
            simp [nh_sd_round, nh_scoreline, nh_pk_scores, nh_saved])
    · injection h with h
      subst h
      rfl

/-- The tail of the shootout never logs a halftime marker. -/
lemma shootout_tail_count (o : Oracle) (fuel : ℕ) (remA remB : List Player)
    (st2 st' : SimState) (h : shootout_tail o fuel remA remB st2 = some st') :
    countHT st'.log = countHT st2.log := by
  rw [shootout_tail] at h
  split_ifs at h with htied
  · rcases hsd : sudden_death o remA remB fuel 0
        (log_event st2 "--- Sudden Death ---" "info" none) with _ | st4 <;>
      rw [hsd] at h
    · exact Option.noConfusion h
    · simp only [Option.map_some'] at h
      injection h with h
      subst h
      rw [countHT_finish, sudden_death_count o remA remB fuel 0 _ st4 hsd]
      simp [nh_sd]
  · simp only [Option.map_some'] at h
    injection h with h
    subst h
    simp

/-- The whole shootout never logs a halftime marker. -/
lemma resolve_shootout_count (o : Oracle) (fuel : ℕ) (st st' : SimState)
    (h : resolve_shootout o fuel st = some st') :
    countHT st'.log = countHT st.log := by
  rw [resolve_shootout] at h
  have key : ∀ (X Y U V : List Player) (Z : SimState),
      countHT Z.log = countHT st.log →
      (shootout_rounds o X Y 5 0 Z).bind (shootout_tail o fuel U V) = some st' →
      countHT st'.log = countHT st.log := by
    intro X Y U V Z hZ hh
    rcases hr : shootout_rounds o X Y 5 0 Z with _ | s2 <;> rw [hr] at hh
    · exact Option.noConfusion hh
    · simp only [Option.some_bind] at hh
      rw [shootout_tail_count o fuel U V s2 st' hh,
        shootout_rounds_count o X Y 5 0 Z s2 hr, hZ]
  exact key _ _ _ _ _ (by simp [nh_drawn]) h

end Football

namespace Football

/-- The main loop never toggles the logging flag. -/
lemma sim_loop_logging (o : Oracle) : ∀ (fuel : ℕ) (st : SimState),
    (sim_loop o fuel st).logging_enabled = st.logging_enabled := by
  intro fuel
  induction fuel with
  | zero =>
    intro st
    rw [sim_loop]
  | succ n ih =>
    intro st
    simp only [sim_loop]
    obtain ⟨_, hlg, _, _, _, _⟩ := fks_facts o st.free_kick_events st rfl
    split_ifs with h90 hq hHT
    · simpa only [process_scheduled_free_kicks] using hlg
    · rw [ih, process_event_logging]
      simp only [log_event_logging, randNat, process_scheduled_free_kicks]
      exact hlg
    · rw [ih, process_event_logging]
      simp only [randNat, process_scheduled_free_kicks]
      exact hlg
    · rfl

/-- C6 (amended): in every simulation that proceeds (both sides field
eleven) with logging enabled, starting from a zero clock and an empty log,
(a) the returned log always holds at least one halftime marker, and (b) it
holds EXACTLY one whenever no free kick is scheduled before minute 45.  The
"exactly once for every free-kick schedule" reading of the original claim is
refuted by the counterexample, where a pre-45 free kick rewinds the clock
across the halftime boundary and a second marker is logged. -/
theorem claim_C6 (o : Oracle) (fuel : ℕ) (st : SimState)
    (hshort : ¬(st.team_a.get_starting_11.length < 11 ∨
      st.team_b.get_starting_11.length < 11))
    (hlog : st.logging_enabled = true)
    (hmin : st.minute = 0)
    (hl0 : st.log = []) :
    (∀ r, simulate o fuel st = some r → 1 ≤ countHT r.log) ∧
    ((∀ f ∈ st.free_kick_events, 45 ≤ f.minute) →
      ∀ r, simulate o fuel st = some r → countHT r.log = 1) := by
  have hfinal : ∀ r, simulate o fuel st = some r →
      countHT r.log = countHT (after_regulation o st).log := by
    intro r hr
    simp only [simulate] at hr
    rw [if_neg hshort] at hr
    split_ifs at hr with hko
    · rcases hrs : resolve_shootout o fuel (after_regulation o st) with _ | s2 <;>
        rw [hrs] at hr
      · exact Option.noConfusion hr
      · simp only [Option.map_some'] at hr
        injection hr with hr
        rw [← hr]
        exact resolve_shootout_count o fuel _ s2 hrs
    · injection hr with hr
      rw [← hr]
      rfl
  have hmeasure : 91 * (log_event st ("Kickoff! (Total FKs scheduled: " ++
        toString st.free_kick_events.length ++ ")") "info"
        none).free_kick_events.length + 91 -
      (log_event st ("Kickoff! (Total FKs scheduled: " ++
        toString st.free_kick_events.length ++ ")") "info" none).minute ≤
      loop_fuel (log_event st ("Kickoff! (Total FKs scheduled: " ++
        toString st.free_kick_events.length ++ ")") "info" none) := by
    simp only [loop_fuel, log_event_evs, log_event_minute]
    omega
  have hexit := sim_loop_exit o _ _ hmeasure
  have hreg : 1 ≤ countHT (after_regulation o st).log ∧
      ((∀ f ∈ st.free_kick_events, 45 ≤ f.minute) →
        countHT (after_regulation o st).log = 1) := by
    constructor
    · rw [after_regulation]
      simp only [sim_loop_logging, log_event_logging, hlog, if_true]
      rw [countHT_log_event _ _ _ _ (nh_fulltime _ _)]
      have hlb := sim_loop_ht_lb o (loop_fuel (log_event st
          ("Kickoff! (Total FKs scheduled: " ++
            toString st.free_kick_events.length ++ ")") "info" none))
        (log_event st ("Kickoff! (Total FKs scheduled: " ++
          toString st.free_kick_events.length ++ ")") "info" none)
        (by simp [hlog]) (Or.inl (by simp [hmin]))
      rcases hlb with h | h
      · omega
      · exact h
    · intro h45
      rw [after_regulation]
      simp only [sim_loop_logging, log_event_logging, hlog, if_true]
      rw [countHT_log_event _ _ _ _ (nh_fulltime _ _)]
      have hub := sim_loop_ht_ub o (loop_fuel (log_event st
          ("Kickoff! (Total FKs scheduled: " ++
            toString st.free_kick_events.length ++ ")") "info" none))
        (log_event st ("Kickoff! (Total FKs scheduled: " ++
          toString st.free_kick_events.length ++ ")") "info" none)
        (by simp [hlog]) (by simpa using h45)
        (Or.inl ⟨by simp [hmin], by
          rw [countHT_log_event _ _ _ _ (nh_kickoff _)]
          rw [hl0]
          rfl⟩)
      rcases hub with ⟨h, _⟩ | ⟨_, h⟩
      · omega
      · exact h
  refine ⟨fun r hr => ?_, fun h45 r hr => ?_⟩
  · rw [hfinal r hr]
    exact hreg.1
  · rw [hfinal r hr]
    exact hreg.2 h45

end Football

namespace Football

/-- Witness for C6: the hypotheses are satisfiable — a concrete state with
both sides fielding eleven, logging on, zero clock and empty log. -/
theorem claim_C6_witness :
    (¬(c6_state0.team_a.get_starting_11.length < 11 ∨
      c6_state0.team_b.get_starting_11.length < 11) ∧
      c6_state0.logging_enabled = true ∧ c6_state0.minute = 0 ∧
      c6_state0.log = []) ∧
    ((∀ r, simulate o6 0 c6_state0 = some r → 1 ≤ countHT r.log) ∧
      ((∀ f ∈ c6_state0.free_kick_events, 45 ≤ f.minute) →
        ∀ r, simulate o6 0 c6_state0 = some r → countHT r.log = 1)) :=
  ⟨⟨by decide, rfl, rfl, rfl⟩,
    claim_C6 o6 0 c6_state0 (by decide) rfl rfl rfl⟩

end Football
